import Mathlib

/-!
# Verification of the blurred-bubbles background simulation and likes endpoint

A shallow embedding of the animated-background component (occupancy grid,
bubble placement, per-frame physics integration, renderer, frame scheduler)
and of the like-counter POST handler, together with proofs settling the
frozen claims about them.

JavaScript numbers are modelled as real numbers (`ℝ`) in the simulation code
(which uses `Math.sin/cos/sqrt/hypot`), and as exact rationals (`ℚ`) in the
color utilities, where JS `NaN` is modelled as `Option.none`.
-/

namespace Bubbles

/-- The occupancy grid: `gridCols`/`gridRows` cell counts and the backing
array (`Float32Array` of length `gridCols * gridRows`), modelled as a list. -/
structure Grid where
  gridCols : ℕ
  gridRows : ℕ
  data : List ℝ

/-- Grid cell size in pixels (`const gridCell = 100`). -/
def gridCell : ℝ := 100

/-- `allocateGrid()`: sizes the grid to `Math.max(1, Math.ceil(dim / gridCell))`
cells per axis and zeroes it (`new Float32Array` is zero-initialised). -/
noncomputable def allocateGrid (width height : ℝ) : Grid :=
  let cols := max 1 (Int.toNat ⌈width / gridCell⌉)
  let rows := max 1 (Int.toNat ⌈height / gridCell⌉)
  { gridCols := cols, gridRows := rows, data := List.replicate (cols * rows) 0 }

/-- One cell update of `stampOccupancy`'s inner loop body:
skip out-of-bounds cells, otherwise add `0.35` at index `cy * gridCols + cx`. -/
def stampCell (g : Grid) (cx cy : ℤ) : Grid :=
  if cx < 0 ∨ cy < 0 ∨ (g.gridCols : ℤ) ≤ cx ∨ (g.gridRows : ℤ) ≤ cy then g
  else
    let idx := (cy * g.gridCols + cx).toNat
    { g with data := g.data.set idx ((g.data.getD idx 0) + 0.35) }

/-- The integer range `[lo, hi]` (empty when `hi < lo`), used for the
`for (let cy = r0; cy <= r1; cy++)` loops. -/
def intRange (lo hi : ℤ) : List ℤ :=
  (List.range (hi + 1 - lo).toNat).map (fun k => lo + k)

/-- `stampOccupancy(x, y, r)`: adds a light weight (`0.35`) to every cell whose
index lies in the bounding-box cell range of the circle, skipping
out-of-bounds cells. -/
noncomputable def stampOccupancy (g : Grid) (x y r : ℝ) : Grid :=
  let c0 := ⌊(x - r) / gridCell⌋
  let c1 := ⌊(x + r) / gridCell⌋
  let r0 := ⌊(y - r) / gridCell⌋
  let r1 := ⌊(y + r) / gridCell⌋
  (intRange r0 r1).foldl (fun g1 cy => (intRange c0 c1).foldl (fun g2 cx => stampCell g2 cx cy) g1) g

/-- `lowestOccupancyTarget()`: the "attraction point".  The closure has the
occupancy `grid` in scope (passed here explicitly), but its body only reads
the clock `t` (`performance.now()`) and the canvas dimensions: a wobble
around the canvas center. -/
noncomputable def lowestOccupancyTarget (grid : Grid) (width height t : ℝ) : ℝ × ℝ :=
  let wobbleX := Real.sin (t * 0.00025) * 0.12
  let wobbleY := Real.cos (t * 0.00018) * 0.04
  (width * (0.5 + wobbleX), height * (0.5 + wobbleY))

/-- `handleResize` (grid-relevant part): if the observed client size is
unchanged, return early; otherwise adopt the new dimensions and reallocate
the occupancy grid.  Returns the updated `(width, height, grid)`. -/
noncomputable def handleResize (w1 h1 : ℝ) (g : Grid) (w2 h2 : ℝ) : ℝ × ℝ × Grid :=
  if w2 = w1 ∧ h2 = h1 then (w1, h1, g)
  else (w2, h2, allocateGrid w2 h2)

/-- Per-bubble simulation state, one record per visual blob, exactly the
fields pushed by the placement loop. -/
structure Bubble where
  x : ℝ
  y : ℝ
  r : ℝ
  rBase : ℝ
  rAmp : ℝ
  rPeriodFactor : ℝ
  sBase : ℝ
  lBase : ℝ
  hBase : ℝ
  hJitterDeg : ℝ
  hueAmpDeg : ℝ
  huePeriodFactor : ℝ
  color : String
  vx : ℝ
  vy : ℝ
  jitter : ℝ
  blur : ℝ
  angle : ℝ
  aspect : ℝ
  noisePhase : ℝ
  homeX : ℝ
  homeY : ℝ

/-- Component configuration: the props of `BlurredBubblesBackground`, the
canvas client dimensions, and the noise function.  `noise` stands for the
`makeNoise2D()` instance from the utils module (not part of these sources):
a fixed 2-argument real function. -/
structure Cfg where
  count : ℕ
  colors : List String
  minRadius : ℝ
  maxRadius : ℝ
  speed : ℝ
  noiseScale : ℝ
  noiseTimeScale : ℝ
  targetFps : ℝ
  debugFps : Bool
  colorShiftSeconds : ℝ
  radiusPulseSeconds : ℝ
  radiusPulseScale : ℝ
  radiusMin : ℝ
  radiusMax : ℝ
  colorShiftDegrees : ℝ
  width : ℝ
  height : ℝ
  noise : ℝ → ℝ → ℝ

/-- Per-frame global quantities of `updatePhysics`, computed once before the
bubble loop: the frame clock `t`, the attraction target `(tx, ty)` and the
center-of-mass balancing force `(balanceX, balanceY)`. -/
structure Globals where
  t : ℝ
  tx : ℝ
  ty : ℝ
  balanceX : ℝ
  balanceY : ℝ

/-- The separation inner loop (`for j ...: if j !== i`) of `updatePhysics`:
accumulates the pairwise push away from every other bubble closer than
`0.65 × (r_i + r_j)`, walking the array with index `j`. -/
noncomputable def sepLoop (b : Bubble) (i : ℕ) : ℕ → List Bubble → ℝ × ℝ → ℝ × ℝ
  | _, [], acc => acc
  | j, o :: rest, acc =>
    if j = i then sepLoop b i (j + 1) rest acc
    else
      let dx := b.x - o.x
      let dy := b.y - o.y
      let d2 := dx * dx + dy * dy
      let minD := (b.r + o.r) * 0.65
      if d2 < minD * minD ∧ 0.001 < d2 then
        let d := Real.sqrt d2
        let push := (minD - d) / minD
        sepLoop b i (j + 1) rest (acc.1 + dx / d * push * 1.8, acc.2 + dy / d * push * 1.8)
      else sepLoop b i (j + 1) rest acc

/-- Separation force on bubble `b` at index `i` against the array `arr`. -/
noncomputable def separationForce (arr : List Bubble) (i : ℕ) (b : Bubble) : ℝ × ℝ :=
  sepLoop b i 0 arr (0, 0)

/-- The five forces summed by `updatePhysics` for one bubble: flow field,
separation (against `arr`, the array as it stands when the bubble is
processed), coverage bias toward `(tx, ty)`, center-of-mass balancing, and
home tether. -/
noncomputable def totalForce (cfg : Cfg) (gl : Globals) (arr : List Bubble) (i : ℕ)
    (b : Bubble) : ℝ × ℝ :=
  let n := cfg.noise (b.x * cfg.noiseScale + b.noisePhase)
    (b.y * cfg.noiseScale + gl.t * cfg.noiseTimeScale + b.noisePhase)
  let angle := n * Real.pi * 2
  let fx := Real.cos angle * cfg.speed * b.jitter
  let fy := Real.sin angle * cfg.speed * b.jitter
  let s := separationForce arr i b
  let dxT := gl.tx - b.x
  let dyT := gl.ty - b.y
  let dT := Real.sqrt (dxT * dxT + dyT * dyT) + 0.001
  let cx := dxT / dT * 0.015
  let cy := dyT / dT * 0.015
  let hx := (b.homeX - b.x) * 0.012
  let hy := (b.homeY - b.y) * 0.012
  (fx + s.1 + cx + gl.balanceX + hx, fy + s.2 + cy + gl.balanceY + hy)

/-- The velocity limit of `updatePhysics`: if `hypot(vx, vy)` exceeds the
cap `maxVel = 4`, rescale the velocity to length 4. -/
noncomputable def clampVel (vx1 vy1 : ℝ) : ℝ × ℝ :=
  let vel := Real.sqrt (vx1 * vx1 + vy1 * vy1)
  if 4 < vel then (vx1 / vel * 4, vy1 / vel * 4) else (vx1, vy1)

/-- The edge bounce of `updatePhysics` on one axis (the two sequential `if`s):
below `lo`, clamp and reflect outward velocity with energy loss; then, if
beyond `hi`, clamp and reflect inward. -/
noncomputable def bounceAxis (lo hi p v : ℝ) : ℝ × ℝ :=
  let p1 := if p < lo then lo else p
  let v1 := if p < lo then |v| * 0.85 else v
  let p2 := if hi < p1 then hi else p1
  let v2 := if hi < p1 then -|v1| * 0.85 else v1
  (p2, v2)

/-- One bubble's integration step: force accumulation, damping (`0.93`),
speed clamp (cap `4`), position integration, and edge bounce inside
`[pad, dimension - pad]` with `pad = r * 0.6`, exactly in source order. -/
noncomputable def integrateBubble (cfg : Cfg) (gl : Globals) (arr : List Bubble) (i : ℕ)
    (b : Bubble) : Bubble :=
  let F := totalForce cfg gl arr i b
  let v2 := clampVel ((b.vx + F.1) * 0.93) ((b.vy + F.2) * 0.93)
  let padX := b.r * 0.6
  let padY := b.r * 0.6
  let bx := bounceAxis padX (cfg.width - padX) (b.x + v2.1) v2.1
  let byy := bounceAxis padY (cfg.height - padY) (b.y + v2.2) v2.2
  { b with x := bx.1, y := byy.1, vx := bx.2, vy := byy.2 }

/-- The `updatePhysics` bubble loop: process index `i` (integrate in place,
then stamp the occupancy grid at the new position with radius `r * 0.6`),
then continue with index `i + 1`, for `k` iterations. -/
noncomputable def physLoop (cfg : Cfg) (gl : Globals) :
    ℕ → ℕ → List Bubble × Grid → List Bubble × Grid
  | 0, _, s => s
  | k + 1, i, s =>
    match s.1.get? i with
    | none => s
    | some b =>
      let b2 := integrateBubble cfg gl s.1 i b
      physLoop cfg gl k (i + 1) (s.1.set i b2, stampOccupancy s.2 b2.x b2.y (b2.r * 0.6))

/-- `updatePhysics(t)`: compute the attraction target and the centroid
balancing force from the pre-update state, then run the in-place bubble
loop over the whole array. -/
noncomputable def updatePhysics (cfg : Cfg) (t : ℝ) (s : List Bubble × Grid) :
    List Bubble × Grid :=
  let target := lowestOccupancyTarget s.2 cfg.width cfg.height t
  let avgX := (s.1.map Bubble.x).sum / max 1 (s.1.length : ℝ)
  let avgY := (s.1.map Bubble.y).sum / max 1 (s.1.length : ℝ)
  let gl : Globals :=
    { t := t
      tx := target.1
      ty := target.2
      balanceX := (cfg.width * 0.5 - avgX) / max cfg.width 1 * 0.25
      balanceY := (cfg.height * 0.5 - avgY) / max cfg.height 1 * 0.15 }
  physLoop cfg gl s.1.length 0 s

/-- Modelled from the spec: the same frame update, but with every bubble's
five forces computed from the pre-update state of all bubbles (a full
snapshot), as the specification requires; occupancy stamps are then applied
at the new positions in array order.  This is the reference `updatePhysics`
the claim compares the code against. -/
noncomputable def updatePhysicsSnapshot (cfg : Cfg) (t : ℝ) (s : List Bubble × Grid) :
    List Bubble × Grid :=
  let target := lowestOccupancyTarget s.2 cfg.width cfg.height t
  let avgX := (s.1.map Bubble.x).sum / max 1 (s.1.length : ℝ)
  let avgY := (s.1.map Bubble.y).sum / max 1 (s.1.length : ℝ)
  let gl : Globals :=
    { t := t
      tx := target.1
      ty := target.2
      balanceX := (cfg.width * 0.5 - avgX) / max cfg.width 1 * 0.25
      balanceY := (cfg.height * 0.5 - avgY) / max cfg.height 1 * 0.15 }
  let bs2 := s.1.mapIdx (fun i b => integrateBubble cfg gl s.1 i b)
  (bs2, bs2.foldl (fun g b => stampOccupancy g b.x b.y (b.r * 0.6)) s.2)

/-- JS truncation toward zero, as used by the `%` remainder operator. -/
noncomputable def jsTrunc (x : ℝ) : ℤ :=
  if 0 ≤ x then ⌊x⌋ else ⌈x⌉

/-- The JS `%` remainder on numbers: `a - b * trunc(a / b)`. -/
noncomputable def jsFmod (a b : ℝ) : ℝ :=
  a - b * (jsTrunc (a / b) : ℝ)

/-- `Number.prototype.toFixed(1)`, modelled as round-half-away-from-zero to
one decimal (the float-level tie behaviour of `toFixed` is outside this
model; no theorem depends on this formatting). -/
noncomputable def jsToFixed1 (x : ℝ) : String :=
  let n : ℤ := if 0 ≤ x then ⌊x * 10 + 1 / 2⌋ else -⌊-x * 10 + 1 / 2⌋
  (if n < 0 then "-" else "") ++ toString (n.natAbs / 10) ++ "." ++ toString (n.natAbs % 10)

/-- `hslToRgbString(h, s, l)`: the paint-ready color template string with
one-decimal components. -/
noncomputable def hslToRgbString (h s l : ℝ) : String :=
  "hsl(" ++ jsToFixed1 h ++ ", " ++ jsToFixed1 s ++ "%, " ++ jsToFixed1 l ++ "%)"

/-- The animated hue of a bubble at clock `t` (`draw`'s color animation):
base hue plus jitter plus a sinusoidal shift, wrapped into `[0, 360)` by
the `% 360` of the source (the `+ 360` makes the dividend nonnegative for
the parameter ranges used). -/
noncomputable def hueAt (cfg : Cfg) (b : Bubble) (t : ℝ) : ℝ :=
  let huePeriodMs := cfg.colorShiftSeconds * 1000 * b.huePeriodFactor
  let huePhase := if 0 < huePeriodMs then jsFmod ((t + b.noisePhase * 1000) / huePeriodMs) 1 else 0
  let hueShift := Real.sin (huePhase * Real.pi * 2) * b.hueAmpDeg
  jsFmod (b.hBase + b.hJitterDeg + hueShift + 360) 360

/-- The animated (pulsating) radius of a bubble at clock `t`, clamped into
`[radiusMin, radiusMax]` (`draw`'s `rNow`). -/
noncomputable def renderedRadius (cfg : Cfg) (b : Bubble) (t : ℝ) : ℝ :=
  let rPeriodMs := cfg.radiusPulseSeconds * 1000 * b.rPeriodFactor
  let rPhase := if 0 < rPeriodMs then jsFmod ((t + b.noisePhase * 1000) / rPeriodMs) 1 else 0
  let rPulse := Real.sin (rPhase * Real.pi * 2)
  min cfg.radiusMax (max cfg.radiusMin (b.rBase + b.rAmp * rPulse))

/-- One painted ellipse of `draw`: translation, rotation, blur, opacity,
fill style and the two ellipse radii (`rNow * aspect`, `rNow`). -/
structure RenderCmd where
  x : ℝ
  y : ℝ
  angle : ℝ
  blur : ℝ
  alpha : ℝ
  fillStyle : String
  radiusX : ℝ
  radiusY : ℝ

/-- `draw()`: paint every bubble, in pool order, as a blurred rotated
ellipse with animated hue and pulsating radius. -/
noncomputable def draw (cfg : Cfg) (t : ℝ) (bs : List Bubble) : List RenderCmd :=
  bs.map (fun b =>
    { x := b.x
      y := b.y
      angle := b.angle
      blur := b.blur
      alpha := 0.55
      fillStyle := hslToRgbString (hueAt cfg b t) b.sBase b.lBase
      radiusX := renderedRadius cfg b t * b.aspect
      radiusY := renderedRadius cfg b t })

/-- The mutable state owned by one simulation instance and touched by a
scheduler tick: the bubble pool, the occupancy grid, the canvas contents
(the list of ellipses last painted), and the scheduler's time accumulators
and FPS counters. -/
structure SimState where
  bubbles : List Bubble
  grid : Grid
  canvas : List RenderCmd
  lastTime : ℝ
  accumulatedTime : ℝ
  fpsCounter : ℕ
  fpsStart : ℝ

/-- `FRAME_INTERVAL = 1000 / effectiveFps` with `effectiveFps = max(1, targetFps)`. -/
noncomputable def frameInterval (cfg : Cfg) : ℝ :=
  1000 / max 1 cfg.targetFps

/-- The FPS bookkeeping of a frame that executed work (only active when
`debugFps` is set). -/
noncomputable def fpsUpdate (cfg : Cfg) (t : ℝ) (counter : ℕ) (start : ℝ) : ℕ × ℝ :=
  if cfg.debugFps then
    let start1 := if start = 0 then t else start
    let counter1 := counter + 1
    if 1000 ≤ t - start1 then (0, t) else (counter1, start1)
  else (counter, start)

/-- One scheduler tick (`frame(t)`): when the host surface is hidden,
reschedule without touching any state; otherwise accumulate elapsed time,
skip work below the frame interval, and on an executed frame clear the
canvas, run the integrator, repaint and update the FPS counters.  Returns
the state after the tick paired with `true` for "a next tick was
scheduled" (every path calls `requestAnimationFrame`). -/
noncomputable def frame (cfg : Cfg) (st : SimState) (t : ℝ) (hidden : Bool) :
    SimState × Bool :=
  if hidden then (st, true)
  else
    let deltaTime := if st.lastTime = 0 then 0 else t - st.lastTime
    let acc := st.accumulatedTime + deltaTime
    if acc < frameInterval cfg then
      ({ st with lastTime := t, accumulatedTime := acc }, true)
    else
      let s2 := updatePhysics cfg t (st.bubbles, st.grid)
      let fps := fpsUpdate cfg t st.fpsCounter st.fpsStart
      ({ bubbles := s2.1
         grid := s2.2
         canvas := draw cfg t s2.1
         lastTime := t
         accumulatedTime := 0
         fpsCounter := fps.1
         fpsStart := fps.2 }, true)

/-- A concrete configuration used to evaluate the simulation on explicit
inputs: the component defaults with `speed = 2` and the constant-zero noise
function. -/
noncomputable def cfgW : Cfg :=
  { count := 1
    colors := []
    minRadius := 120
    maxRadius := 460
    speed := 2
    noiseScale := 0.0007
    noiseTimeScale := 0.001
    targetFps := 16
    debugFps := false
    colorShiftSeconds := 15
    radiusPulseSeconds := 18
    radiusPulseScale := 0.18
    radiusMin := 120
    radiusMax := 460
    colorShiftDegrees := 30
    width := 1000
    height := 1000
    noise := fun _ _ => 0 }

/-- A concrete bubble resting at the frame-0 attraction point `(500, 540)`
with zero velocity and zero jitter. -/
def bW : Bubble :=
  { x := 500
    y := 540
    r := 100
    rBase := 200
    rAmp := 10
    rPeriodFactor := 1
    sBase := 70
    lBase := 60
    hBase := 200
    hJitterDeg := 0
    hueAmpDeg := 30
    huePeriodFactor := 1
    color := ""
    vx := 0
    vy := 0
    jitter := 0
    blur := 60
    angle := 0
    aspect := 1
    noisePhase := 0
    homeX := 500
    homeY := 540 }

/-- An arbitrary small grid for the concrete evaluations. -/
def gridW : Grid :=
  { gridCols := 10, gridRows := 10, data := List.replicate 100 0 }

/-- The image of `bW` under one frame of physics at `t = 0`: only the
centroid-balancing force acts (then damping), moving it down by `0.00558`. -/
def bW2 : Bubble :=
  { bW with y := 539.99442, vy := -0.00558 }

end Bubbles

namespace Colors

/-- JS numbers in the color utilities are exact rationals; `none` models
`NaN` (and arithmetic on `undefined`, which yields `NaN`). -/
abbrev JsNum := Option ℚ

/-- Value of one hexadecimal digit character, `none` for a non-digit. -/
def hexDigitVal (c : Char) : Option ℕ :=
  if '0' ≤ c ∧ c ≤ '9' then some (c.toNat - '0'.toNat)
  else if 'a' ≤ c ∧ c ≤ 'f' then some (c.toNat - 'a'.toNat + 10)
  else if 'A' ≤ c ∧ c ≤ 'F' then some (c.toNat - 'A'.toNat + 10)
  else none

/-- Accumulate the longest prefix of hexadecimal digits; the accumulator is
`none` while no digit has been consumed (so an empty prefix means `NaN`). -/
def hexPrefixVal : List Char → Option ℕ → Option ℕ
  | [], acc => acc
  | c :: rest, acc =>
    match hexDigitVal c with
    | some d => hexPrefixVal rest (some ((acc.getD 0) * 16 + d))
    | none => acc

/-- With radix 16, `parseInt` skips a leading `0x`/`0X` after the sign. -/
def stripHexMark : List Char → List Char
  | c1 :: c2 :: rest =>
    if c1 = '0' ∧ (c2 = 'x' ∨ c2 = 'X') then rest else c1 :: c2 :: rest
  | l => l

/-- JS `parseInt(s, 16)`: skip leading whitespace, read an optional sign,
skip a `0x` mark, then take the value of the longest hexadecimal-digit
prefix; `NaN` (`none`) when that prefix is empty. -/
def jsParseIntHex (s : String) : Option ℤ :=
  match s.data.dropWhile Char.isWhitespace with
  | [] => none
  | c :: rest =>
    if c = '-' then (hexPrefixVal (stripHexMark rest) none).map (fun n => -(n : ℤ))
    else if c = '+' then (hexPrefixVal (stripHexMark rest) none).map (fun n => (n : ℤ))
    else (hexPrefixVal (stripHexMark (c :: rest)) none).map (fun n => (n : ℤ))

/-- Remove the first occurrence of a character, as JS
`String.replace('#', '')` does for a single-character pattern. -/
def removeFirstChar (c : Char) : List Char → List Char
  | [] => []
  | x :: xs => if x = c then xs else x :: removeFirstChar c xs

/-- JS `String.slice(a, b)` for `0 ≤ a ≤ b` within bounds (the only uses). -/
def jsSlice (s : String) (a b : ℕ) : String :=
  String.mk ((s.data.drop a).take (b - a))

/-- `clamp(v) = Math.max(0, Math.min(255, v))`; `NaN` propagates through
`Math.min`/`Math.max`. -/
def clampQ (v : JsNum) : JsNum :=
  v.map (fun q => max 0 (min 255 q))

/-- Decimal rendering of a rational: exact for integers, and for values with
a terminating decimal expansion (all values produced by the color pipeline);
other rationals (never produced here) fall back to a fraction form. -/
def qDecimalString (q : ℚ) : String :=
  let sign := if q < 0 then "-" else ""
  let n := q.num.natAbs
  if q.den = 1 then sign ++ toString n
  else
    match (List.range 30).find? (fun k => (q * 10 ^ (k + 1)).den = 1) with
    | some k =>
      let m := (q * 10 ^ (k + 1)).num.natAbs
      let frac := toString (m % 10 ^ (k + 1))
      sign ++ toString (m / 10 ^ (k + 1)) ++ "." ++
        String.mk (List.replicate (k + 1 - frac.length) '0') ++ frac
    | none => sign ++ toString n ++ "/" ++ toString q.den

/-- JS number-to-string coercion as used in the template literal. -/
def jsNumToString : JsNum → String
  | none => "NaN"
  | some q => qDecimalString q

/-- `tint(color, factor)`: empty (falsy) input is returned unchanged; the
first `#` is removed; a string whose remainder is not exactly 6 characters
is returned unchanged; otherwise the three 2-character slices are parsed
with `parseInt(_, 16)`, multiplied by `factor`, clamped to `[0, 255]` and
formatted as an `rgb(...)` string. -/
def tint (color : String) (factor : ℚ) : String :=
  if color = "" then color
  else
    let hex := String.mk (removeFirstChar '#' color.data)
    if hex.length ≠ 6 then color
    else
      let r := jsParseIntHex (jsSlice hex 0 2)
      let g := jsParseIntHex (jsSlice hex 2 4)
      let b := jsParseIntHex (jsSlice hex 4 6)
      let ch := fun (v : Option ℤ) => jsNumToString (clampQ (v.map (fun (n : ℤ) => (n : ℚ) * factor)))
      "rgb(" ++ ch r ++ ", " ++ ch g ++ ", " ++ ch b ++ ")"

/-- `NaN`-propagating addition. -/
def jAdd : JsNum → JsNum → JsNum
  | some x, some y => some (x + y)
  | _, _ => none

/-- `NaN`-propagating subtraction. -/
def jSub : JsNum → JsNum → JsNum
  | some x, some y => some (x - y)
  | _, _ => none

/-- `NaN`-propagating multiplication. -/
def jMul : JsNum → JsNum → JsNum
  | some x, some y => some (x * y)
  | _, _ => none

/-- `NaN`-propagating division.  JS division by zero yields `±Infinity`
(`NaN` for `0/0`); infinities are outside this model and also mapped to
`none` — no theorem exercises a zero denominator. -/
def jDiv : JsNum → JsNum → JsNum
  | some x, some y => if y = 0 then none else some (x / y)
  | _, _ => none

/-- `Math.max` of three values (`NaN` if any argument is `NaN`). -/
def jMax3 : JsNum → JsNum → JsNum → JsNum
  | some x, some y, some z => some (max x (max y z))
  | _, _, _ => none

/-- `Math.min` of three values (`NaN` if any argument is `NaN`). -/
def jMin3 : JsNum → JsNum → JsNum → JsNum
  | some x, some y, some z => some (min x (min y z))
  | _, _, _ => none

/-- JS strict inequality `!==` on numbers: `NaN !== NaN` is `true`. -/
def jStrictNe : JsNum → JsNum → Bool
  | some x, some y => decide (x ≠ y)
  | _, _ => true

/-- JS strict equality `===` on numbers (as used by `switch`): `NaN`
matches nothing. -/
def jStrictEq : JsNum → JsNum → Bool
  | some x, some y => decide (x = y)
  | _, _ => false

/-- JS `>` on numbers: any comparison with `NaN` is `false`. -/
def jGt : JsNum → JsNum → Bool
  | some x, some y => decide (y < x)
  | _, _ => false

/-- JS `<` on numbers: any comparison with `NaN` is `false`. -/
def jLt : JsNum → JsNum → Bool
  | some x, some y => decide (x < y)
  | _, _ => false

/-- The saturation branch of `rgbToHslTuple`: `s` keeps its initial `0` when
`max === min`; otherwise `d / (2 - max - min)` when `l > 0.5`, else
`d / (max + min)`, with `d = max - min`. -/
def hslSat (maxv minv l : JsNum) (ne : Bool) : JsNum :=
  if ne then
    if jGt l (some (1 / 2)) then jDiv (jSub maxv minv) (jSub (some 2) (jAdd maxv minv))
    else jDiv (jSub maxv minv) (jAdd maxv minv)
  else some 0

/-- The `switch (max)`-selected hue formula of `rgbToHslTuple` (before the
`/= 6`): `h` keeps its initial `0` when `max === min` or when no `case`
matches (which happens when `max` is `NaN`). -/
def hslHue (r g b maxv minv : JsNum) (ne : Bool) : JsNum :=
  if ne then
    if jStrictEq maxv r then
      jAdd (jDiv (jSub g b) (jSub maxv minv)) (if jLt g b then some 6 else some 0)
    else if jStrictEq maxv g then jAdd (jDiv (jSub b r) (jSub maxv minv)) (some 2)
    else if jStrictEq maxv b then jAdd (jDiv (jSub r g) (jSub maxv minv)) (some 4)
    else some 0
  else some 0

/-- The arithmetic part of `rgbToHslTuple` after the channels `r, g, b` have
been read (each a JS number, possibly `NaN`): normalise by 255, compute
max/min/lightness, then saturation and the `switch`-selected hue formula,
and finally scale to degrees and percentages (`h /= 6`, `h * 360`,
`s * 100`, `l * 100`). -/
def hslCore (r0 g0 b0 : JsNum) : JsNum × JsNum × JsNum :=
  let r := jDiv r0 (some 255)
  let g := jDiv g0 (some 255)
  let b := jDiv b0 (some 255)
  let maxv := jMax3 r g b
  let minv := jMin3 r g b
  let l := jDiv (jAdd maxv minv) (some 2)
  let ne := jStrictNe maxv minv
  (jMul (jDiv (hslHue r g b maxv minv ne) (some 6)) (some 360),
    jMul (hslSat maxv minv l ne) (some 100), jMul l (some 100))

/-- Is this character matched by the regex class `[\d\.]`? -/
def isNumRunChar (c : Char) : Bool :=
  c.isDigit || c = '.'

/-- Maximal runs of `[\d\.]` characters, as produced by
`color.match(/([\d\.]+)/g)` (an empty match list stands for the `null`
result coalesced to `[]`). -/
def numRunsAux : List Char → List Char → List (List Char)
  | [], cur => if cur.isEmpty then [] else [cur.reverse]
  | c :: rest, cur =>
    if isNumRunChar c then numRunsAux rest (c :: cur)
    else if cur.isEmpty then numRunsAux rest []
    else cur.reverse :: numRunsAux rest []

/-- Decimal value of a digit list. -/
def digitsVal (ds : List Char) : ℕ :=
  ds.foldl (fun a c => a * 10 + (c.toNat - '0'.toNat)) 0

/-- JS `Number(run)` on a run of digits and dots: a number when there is at
most one dot and at least one digit, `NaN` otherwise (e.g. `"1.2.3"`, `"."`). -/
def jsNumberOfRun (cs : List Char) : JsNum :=
  match cs.splitOn '.' with
  | [ds] => if ds.isEmpty then none else some (digitsVal ds)
  | [l, r] =>
    if l.isEmpty ∧ r.isEmpty then none
    else some ((digitsVal l : ℚ) + (digitsVal r : ℚ) / 10 ^ r.length)
  | _ => none

/-- JS `String.prototype.startsWith` for an ASCII literal prefix, modelled on
the character list. -/
def jsStartsWith (s : String) (pre : List Char) : Bool :=
  pre.isPrefixOf s.data

/-- `rgbToHslTuple(color)`: the `#rrggbb` branch (leading `#`, length 7,
channels via `parseInt(_, 16)`), the `rgb`-prefix branch (numbers scraped by
regex; missing entries are `undefined`, whose arithmetic is `NaN`), and the
`null` fallback for every other shape. -/
def rgbToHslTuple (color : String) : Option (JsNum × JsNum × JsNum) :=
  if jsStartsWith color ['#'] ∧ color.length = 7 then
    some (hslCore ((jsParseIntHex (jsSlice color 1 3)).map (fun (n : ℤ) => (n : ℚ)))
      ((jsParseIntHex (jsSlice color 3 5)).map (fun (n : ℤ) => (n : ℚ)))
      ((jsParseIntHex (jsSlice color 5 7)).map (fun (n : ℤ) => (n : ℚ))))
  else if jsStartsWith color ['r', 'g', 'b'] then
    let nums := (numRunsAux color.data []).map jsNumberOfRun
    some (hslCore ((nums.get? 0).getD none) ((nums.get? 1).getD none) ((nums.get? 2).getD none))
  else none

/-- Value of a two-hexadecimal-digit pair, `none` if either is not a digit. -/
def hexPairVal (a b : Char) : Option ℕ :=
  match hexDigitVal a, hexDigitVal b with
  | some va, some vb => some (va * 16 + vb)
  | _, _ => none

/-- Modelled from the spec: a well-formed 6-digit hex color (an optional
leading `#`, then exactly six hexadecimal digits) and its three channels. -/
def specHexChannels (s : String) : Option (ℕ × ℕ × ℕ) :=
  match if s.data.head? = some '#' then s.data.tail else s.data with
  | [c1, c2, c3, c4, c5, c6] =>
    match hexPairVal c1 c2, hexPairVal c3 c4, hexPairVal c5 c6 with
    | some r, some g, some b => some (r, g, b)
    | _, _, _ => none
  | _ => none

end Colors

namespace Bubbles

/-- The realized outputs of the `rand(...)` calls of one iteration of the
placement loop: the candidate radius and center, and the per-bubble
appearance/oscillation draws used if the candidate is accepted.  (The tint
factor feeds the exact-rational color pipeline.) -/
structure Cand where
  r : ℝ
  x : ℝ
  y : ℝ
  tintFactor : ℚ
  hueAmpDeg : ℝ
  huePeriodFactor : ℝ
  hJitterDeg : ℝ
  rAmpFactor : ℝ
  rPeriodFactor : ℝ
  vx : ℝ
  vy : ℝ
  jitter : ℝ
  blur : ℝ
  angle : ℝ
  aspect : ℝ
  noisePhase : ℝ

/-- Bridge from the exact-rational color model into the real-valued bubble
state.  JS `NaN` (reachable only from malformed palette strings) has no
representative in `ℝ` and is mapped to the code's unparseable-color
fallback value.  No claim depends on the color-derived bubble fields. -/
noncomputable def jsNumToRealD (dflt : ℝ) : Option ℚ → ℝ
  | none => dflt
  | some q => (q : ℝ)

/-- Build the bubble record pushed for an accepted candidate at pool index
`idx`: palette color by index modulo palette length, tinted, converted to an
HSL baseline (fallback `(200, 70, 60)` when unparseable), plus the
candidate's draws.  An empty palette (which would make the original code
fault on `undefined`) is modelled by the empty color string. -/
noncomputable def buildBubble (cfg : Cfg) (idx : ℕ) (c : Cand) : Bubble :=
  let baseColor := if cfg.colors.isEmpty then "" else cfg.colors.getD (idx % cfg.colors.length) ""
  let tinted := Colors.tint baseColor c.tintFactor
  let hsl := Colors.rgbToHslTuple tinted
  { x := c.x
    y := c.y
    r := c.r
    rBase := c.r
    rAmp := c.r * c.rAmpFactor
    rPeriodFactor := c.rPeriodFactor
    sBase := match hsl with | some hv => jsNumToRealD 70 hv.2.1 | none => 70
    lBase := match hsl with | some hv => jsNumToRealD 60 hv.2.2 | none => 60
    hBase := match hsl with | some hv => jsNumToRealD 200 hv.1 | none => 200
    hJitterDeg := c.hJitterDeg
    hueAmpDeg := c.hueAmpDeg
    huePeriodFactor := c.huePeriodFactor
    color := tinted
    vx := c.vx
    vy := c.vy
    jitter := c.jitter
    blur := c.blur
    angle := c.angle
    aspect := c.aspect
    noisePhase := c.noisePhase
    homeX := c.x
    homeY := c.y }

/-- `minDist = Math.max(minRadius * 0.7, 120)`. -/
noncomputable def minDistanceFloor (cfg : Cfg) : ℝ :=
  max (cfg.minRadius * 0.7) 120

/-- The placement loop: while fewer than `count` bubbles are placed and
candidates (tries) remain, accept a candidate only if its center is far
enough (`≥ (r_i + r_new) * 0.6` and `≥ minDist`, via `Math.hypot`) from
every already-placed bubble. -/
noncomputable def placeLoop (cfg : Cfg) (minDist : ℝ) :
    List Cand → List Bubble → List Bubble
  | [], acc => acc
  | c :: cs, acc =>
    if acc.length < cfg.count then
      if ∀ b ∈ acc, ¬(Real.sqrt ((b.x - c.x) ^ 2 + (b.y - c.y) ^ 2) < (b.r + c.r) * 0.6 ∨
          Real.sqrt ((b.x - c.x) ^ 2 + (b.y - c.y) ^ 2) < minDist) then
        placeLoop cfg minDist cs (acc ++ [buildBubble cfg acc.length c])
      else placeLoop cfg minDist cs acc
    else acc

/-- The whole initial placement of `BlurredBubblesBackground`, starting from
an empty pool, over an arbitrary stream of candidate tries. -/
noncomputable def placeBubbles (cfg : Cfg) (cands : List Cand) : List Bubble :=
  placeLoop cfg (minDistanceFloor cfg) cands []

end Bubbles

namespace Bubbles

/-- C2.  The attraction point is independent of the occupancy grid's contents:
any two grids, each additionally mutated by an arbitrary history of
`stampOccupancy` calls, give the same target; it is a function of time and
canvas dimensions only. -/
theorem lowestOccupancyTarget_grid_independent
    (g g' : Grid) (stamps stamps' : List (ℝ × ℝ × ℝ)) (width height t : ℝ) :
    lowestOccupancyTarget (stamps.foldl (fun gr s => stampOccupancy gr s.1 s.2.1 s.2.2) g)
        width height t =
    lowestOccupancyTarget (stamps'.foldl (fun gr s => stampOccupancy gr s.1 s.2.1 s.2.2) g')
        width height t := rfl

/-- The speed clamp caps the squared velocity norm at `16`. -/
theorem clampVel_norm (vx1 vy1 : ℝ) :
    (clampVel vx1 vy1).1 ^ 2 + (clampVel vx1 vy1).2 ^ 2 ≤ 16 := by
  simp only [clampVel]
  have hnn : 0 ≤ vx1 * vx1 + vy1 * vy1 := by nlinarith [sq_nonneg vx1, sq_nonneg vy1]
  have hsq : Real.sqrt (vx1 * vx1 + vy1 * vy1) ^ 2 = vx1 * vx1 + vy1 * vy1 :=
    Real.sq_sqrt hnn
  split_ifs with h
  · have hv0 : (0 : ℝ) < Real.sqrt (vx1 * vx1 + vy1 * vy1) := lt_trans (by norm_num) h
    have hrw : (vx1 / Real.sqrt (vx1 * vx1 + vy1 * vy1) * 4) ^ 2 +
        (vy1 / Real.sqrt (vx1 * vx1 + vy1 * vy1) * 4) ^ 2 =
        16 * (vx1 * vx1 + vy1 * vy1) / Real.sqrt (vx1 * vx1 + vy1 * vy1) ^ 2 := by
      field_simp
      ring
    rw [hrw, hsq]
    rw [mul_div_assoc, div_self (by nlinarith : vx1 * vx1 + vy1 * vy1 ≠ 0), mul_one]
  · push_neg at h
    have h16 : Real.sqrt (vx1 * vx1 + vy1 * vy1) ^ 2 ≤ 16 := by
      nlinarith [Real.sqrt_nonneg (vx1 * vx1 + vy1 * vy1)]
    rw [hsq] at h16
    simp only
    nlinarith

/-- The edge bounce keeps the position inside `[lo, hi]` whenever that
interval is nonempty. -/
theorem bounceAxis_mem (lo hi p v : ℝ) (h : lo ≤ hi) :
    lo ≤ (bounceAxis lo hi p v).1 ∧ (bounceAxis lo hi p v).1 ≤ hi := by
  simp only [bounceAxis]
  split_ifs with h1 h2 h2 <;> constructor <;> push_neg at * <;> linarith

/-- The edge bounce never increases the squared velocity component. -/
theorem bounceAxis_v_sq (lo hi p v : ℝ) :
    (bounceAxis lo hi p v).2 ^ 2 ≤ v ^ 2 := by
  have key : ∀ w : ℝ, (|w| * 0.85) ^ 2 ≤ w ^ 2 := by
    intro w
    rw [mul_pow, sq_abs]
    nlinarith [sq_nonneg w]
  simp only [bounceAxis]
  split_ifs with h1 h2 h2
  · calc (-|(|v| * 0.85)| * 0.85) ^ 2 = (|(|v| * 0.85)| * 0.85) ^ 2 := by ring
      _ ≤ (|v| * 0.85) ^ 2 := key _
      _ ≤ v ^ 2 := key v
  · exact key v
  · calc (-|v| * 0.85) ^ 2 = (|v| * 0.85) ^ 2 := by ring
      _ ≤ v ^ 2 := key v
  · exact le_refl _

/-- A bubble's integration step does not change its radius field. -/
theorem integrateBubble_r (cfg : Cfg) (gl : Globals) (arr : List Bubble) (i : ℕ)
    (b : Bubble) : (integrateBubble cfg gl arr i b).r = b.r := rfl

/-- After one integration step, the squared velocity norm is at most `16`. -/
theorem integrateBubble_norm_le (cfg : Cfg) (gl : Globals) (arr : List Bubble) (i : ℕ)
    (b : Bubble) :
    (integrateBubble cfg gl arr i b).vx ^ 2 + (integrateBubble cfg gl arr i b).vy ^ 2 ≤ 16 := by
  set F := totalForce cfg gl arr i b with hF
  set V := clampVel ((b.vx + F.1) * 0.93) ((b.vy + F.2) * 0.93) with hV
  have hvx : (integrateBubble cfg gl arr i b).vx =
      (bounceAxis (b.r * 0.6) (cfg.width - b.r * 0.6) (b.x + V.1) V.1).2 := rfl
  have hvy : (integrateBubble cfg gl arr i b).vy =
      (bounceAxis (b.r * 0.6) (cfg.height - b.r * 0.6) (b.y + V.2) V.2).2 := rfl
  have h1 := bounceAxis_v_sq (b.r * 0.6) (cfg.width - b.r * 0.6) (b.x + V.1) V.1
  have h2 := bounceAxis_v_sq (b.r * 0.6) (cfg.height - b.r * 0.6) (b.y + V.2) V.2
  have h3 := clampVel_norm ((b.vx + F.1) * 0.93) ((b.vy + F.2) * 0.93)
  rw [hvx, hvy]
  rw [← hV] at h3
  linarith

/-- After one integration step, the position lies inside the padded bounds
on both axes, whenever those bounds are nonempty. -/
theorem integrateBubble_pos_mem (cfg : Cfg) (gl : Globals) (arr : List Bubble) (i : ℕ)
    (b : Bubble) (hx : b.r * 0.6 ≤ cfg.width - b.r * 0.6)
    (hy : b.r * 0.6 ≤ cfg.height - b.r * 0.6) :
    (b.r * 0.6 ≤ (integrateBubble cfg gl arr i b).x ∧
      (integrateBubble cfg gl arr i b).x ≤ cfg.width - b.r * 0.6) ∧
    (b.r * 0.6 ≤ (integrateBubble cfg gl arr i b).y ∧
      (integrateBubble cfg gl arr i b).y ≤ cfg.height - b.r * 0.6) := by
  set F := totalForce cfg gl arr i b with hF
  set V := clampVel ((b.vx + F.1) * 0.93) ((b.vy + F.2) * 0.93) with hV
  have hxx : (integrateBubble cfg gl arr i b).x =
      (bounceAxis (b.r * 0.6) (cfg.width - b.r * 0.6) (b.x + V.1) V.1).1 := rfl
  have hyy : (integrateBubble cfg gl arr i b).y =
      (bounceAxis (b.r * 0.6) (cfg.height - b.r * 0.6) (b.y + V.2) V.2).1 := rfl
  rw [hxx, hyy]
  exact ⟨bounceAxis_mem _ _ _ _ hx, bounceAxis_mem _ _ _ _ hy⟩

/-- The bubble loop does not change the length of the bubble array. -/
theorem physLoop_length (cfg : Cfg) (gl : Globals) (k : ℕ) :
    ∀ (i : ℕ) (s : List Bubble × Grid), ((physLoop cfg gl k i s).1).length = s.1.length := by
  induction k with
  | zero => intro i s; rfl
  | succ k ih =>
    intro i s
    cases hgi : s.1.get? i with
    | none => simp only [physLoop, hgi]
    | some b =>
      simp only [physLoop, hgi]
      rw [ih (i + 1)]
      exact List.length_set s.1 i _

/-- Array entries below the loop index are untouched by the bubble loop. -/
theorem physLoop_get_lt (cfg : Cfg) (gl : Globals) (k : ℕ) :
    ∀ (i : ℕ) (s : List Bubble × Grid) (j : ℕ), j < i →
      ((physLoop cfg gl k i s).1).get? j = s.1.get? j := by
  induction k with
  | zero => intro i s j _; rfl
  | succ k ih =>
    intro i s j hj
    cases hgi : s.1.get? i with
    | none => simp only [physLoop, hgi]
    | some b =>
      simp only [physLoop, hgi]
      rw [ih (i + 1) _ j (by omega)]
      exact List.get?_set_ne _ _ (by omega)

/-- Every array entry the bubble loop has processed is the result of one
`integrateBubble` step (against the array as it stood at processing time). -/
theorem physLoop_get_processed (cfg : Cfg) (gl : Globals) (k : ℕ) :
    ∀ (i : ℕ) (s : List Bubble × Grid) (j : ℕ), i ≤ j → j < i + k → j < s.1.length →
      ∃ arr2 b0, ((physLoop cfg gl k i s).1).get? j =
        some (integrateBubble cfg gl arr2 j b0) := by
  induction k with
  | zero => intro i s j h1 h2 _; omega
  | succ k ih =>
    intro i s j h1 h2 h3
    cases hgi : s.1.get? i with
    | none =>
      exfalso
      have := List.get?_eq_none.mp hgi
      omega
    | some b =>
      simp only [physLoop, hgi]
      by_cases hij : j = i
      · refine ⟨s.1, b, ?_⟩
        rw [physLoop_get_lt cfg gl k (i + 1) _ j (by omega), hij]
        exact List.get?_set_eq_of_lt _ (by omega)
      · exact ih (i + 1) _ j (by omega) (by omega) (by simpa [List.length_set] using h3)

/-- A bubble reached by `get?` in the output of the bubble loop (within the
processed index range) is the `integrateBubble` image of some bubble against
some array. -/
theorem physLoop_get_integrate (cfg : Cfg) (gl : Globals) (k i0 : ℕ)
    (s : List Bubble × Grid) (i : ℕ) (b2 : Bubble)
    (hmem : ((physLoop cfg gl k i0 s).1).get? i = some b2)
    (h1 : i0 ≤ i) (h2 : i < i0 + k) :
    ∃ arr2 b0, b2 = integrateBubble cfg gl arr2 i b0 := by
  have hlen : i < s.1.length := by
    obtain ⟨hlt, -⟩ := List.get?_eq_some.mp hmem
    rwa [physLoop_length] at hlt
  obtain ⟨arr2, b0, hget⟩ := physLoop_get_processed cfg gl k i0 s i h1 h2 hlen
  rw [hget] at hmem
  exact ⟨arr2, b0, (Option.some.inj hmem).symm⟩

/-- The speed cap for one integration step, phrased as the Euclidean norm. -/
theorem integrateBubble_speed (cfg : Cfg) (gl : Globals) (arr : List Bubble) (i : ℕ)
    (b : Bubble) :
    Real.sqrt ((integrateBubble cfg gl arr i b).vx ^ 2 +
      (integrateBubble cfg gl arr i b).vy ^ 2) ≤ 4 := by
  have h4 := Real.sqrt_le_sqrt (integrateBubble_norm_le cfg gl arr i b)
  rwa [show (16 : ℝ) = 4 ^ 2 by norm_num, Real.sqrt_sq (by norm_num : (0 : ℝ) ≤ 4)] at h4

/-- C4.  After any single integration step of `updatePhysics`, every bubble's
velocity magnitude is at most the cap of 4 units per frame. -/
theorem updatePhysics_velocity_cap (cfg : Cfg) (t : ℝ) (s : List Bubble × Grid)
    (i : ℕ) (b2 : Bubble)
    (hmem : ((updatePhysics cfg t s).1).get? i = some b2) :
    Real.sqrt (b2.vx ^ 2 + b2.vy ^ 2) ≤ 4 := by
  rw [updatePhysics] at hmem
  have hlen : i < s.1.length := by
    obtain ⟨hlt, -⟩ := List.get?_eq_some.mp hmem
    rwa [physLoop_length] at hlt
  obtain ⟨arr2, b0, hb⟩ :=
    physLoop_get_integrate _ _ _ _ _ _ _ hmem (Nat.zero_le i) (by omega)
  rw [hb]
  exact integrateBubble_speed _ _ _ _ _

/-- Position-and-radius invariant for one integration step, phrased over the
output bubble's own fields (its radius is unchanged by the step). -/
theorem integrateBubble_invariant (cfg : Cfg) (gl : Globals) (arr : List Bubble) (i : ℕ)
    (b : Bubble)
    (hx : 0.6 * (integrateBubble cfg gl arr i b).r ≤
      cfg.width - 0.6 * (integrateBubble cfg gl arr i b).r)
    (hy : 0.6 * (integrateBubble cfg gl arr i b).r ≤
      cfg.height - 0.6 * (integrateBubble cfg gl arr i b).r) :
    (0.6 * (integrateBubble cfg gl arr i b).r ≤ (integrateBubble cfg gl arr i b).x ∧
      (integrateBubble cfg gl arr i b).x ≤ cfg.width - 0.6 * (integrateBubble cfg gl arr i b).r) ∧
    (0.6 * (integrateBubble cfg gl arr i b).r ≤ (integrateBubble cfg gl arr i b).y ∧
      (integrateBubble cfg gl arr i b).y ≤ cfg.height - 0.6 * (integrateBubble cfg gl arr i b).r) := by
  rw [integrateBubble_r] at hx hy ⊢
  have hpos := integrateBubble_pos_mem cfg gl arr i b (by linarith) (by linarith)
  exact ⟨⟨by linarith [hpos.1.1], by linarith [hpos.1.2]⟩,
    ⟨by linarith [hpos.2.1], by linarith [hpos.2.2]⟩⟩

/-- The rendered (pulsating) radius is always clamped into
`[radiusMin, radiusMax]` when that interval is nonempty. -/
theorem renderedRadius_mem (cfg : Cfg) (b : Bubble) (t2 : ℝ)
    (hr : cfg.radiusMin ≤ cfg.radiusMax) :
    cfg.radiusMin ≤ renderedRadius cfg b t2 ∧ renderedRadius cfg b t2 ≤ cfg.radiusMax := by
  unfold renderedRadius
  exact ⟨le_min hr (le_max_left _ _), min_le_left _ _⟩

/-- C3.  After an integration step completes, a bubble's position lies within
`[0.6r, dimension − 0.6r]` on both axes (provided those intervals are
nonempty), and its rendered radius at any clock lies within
`[radiusMin, radiusMax]` (provided `radiusMin ≤ radiusMax`). -/
theorem updatePhysics_position_radius_invariant (cfg : Cfg) (t : ℝ)
    (s : List Bubble × Grid) (i : ℕ) (b2 : Bubble)
    (hmem : ((updatePhysics cfg t s).1).get? i = some b2)
    (hx : 0.6 * b2.r ≤ cfg.width - 0.6 * b2.r)
    (hy : 0.6 * b2.r ≤ cfg.height - 0.6 * b2.r)
    (hr : cfg.radiusMin ≤ cfg.radiusMax) :
    (0.6 * b2.r ≤ b2.x ∧ b2.x ≤ cfg.width - 0.6 * b2.r) ∧
    (0.6 * b2.r ≤ b2.y ∧ b2.y ≤ cfg.height - 0.6 * b2.r) ∧
    ∀ t2 : ℝ, cfg.radiusMin ≤ renderedRadius cfg b2 t2 ∧
      renderedRadius cfg b2 t2 ≤ cfg.radiusMax := by
  rw [updatePhysics] at hmem
  have hlen : i < s.1.length := by
    obtain ⟨hlt, -⟩ := List.get?_eq_some.mp hmem
    rwa [physLoop_length] at hlt
  obtain ⟨arr2, b0, hb⟩ :=
    physLoop_get_integrate _ _ _ _ _ _ _ hmem (Nat.zero_le i) (by omega)
  rw [hb] at hx hy ⊢
  have hinv := integrateBubble_invariant _ _ _ _ _ hx hy
  exact ⟨hinv.1, hinv.2, fun t2 => renderedRadius_mem _ _ t2 hr⟩

/-- Concrete evaluation: one frame of physics at `t = 0` on the single-bubble
pool `[bW]` produces `[bW2]`. -/
theorem updW_get : ((updatePhysics cfgW 0 ([bW], gridW)).1).get? 0 = some bW2 := by
  have hs0 : Real.sqrt ((0 : ℝ) * 0 + 0 * 0) = 0 := by
    rw [show ((0 : ℝ) * 0 + 0 * 0) = 0 by norm_num, Real.sqrt_zero]
  have hsq : Real.sqrt ((77841 / 2500000000 : ℝ)) = 279 / 50000 := by
    rw [show (77841 / 2500000000 : ℝ) = (279 / 50000) ^ 2 by norm_num,
      Real.sqrt_sq (by norm_num)]
  have hgl : updatePhysics cfgW 0 ([bW], gridW) =
      physLoop cfgW { t := 0, tx := 500, ty := 540, balanceX := 0, balanceY := -0.006 }
        1 0 ([bW], gridW) := by
    rw [updatePhysics]
    norm_num [lowestOccupancyTarget, cfgW, bW, Real.sin_zero, Real.cos_zero, max_self,
      max_eq_left, List.map_cons, List.map_nil, List.sum_cons, List.sum_nil]
  rw [hgl]
  simp only [physLoop, List.get?_cons_zero]
  have hF : totalForce cfgW { t := 0, tx := 500, ty := 540, balanceX := 0, balanceY := -0.006 }
      [bW] 0 bW = (0, -0.006) := by
    rw [totalForce, separationForce]
    simp only [sepLoop, cfgW, bW]
    norm_num [hs0]
  have hint : integrateBubble cfgW
      { t := 0, tx := 500, ty := 540, balanceX := 0, balanceY := -0.006 } [bW] 0 bW = bW2 := by
    rw [integrateBubble, hF]
    have hcl : clampVel ((bW.vx + (0 : ℝ)) * 0.93) ((bW.vy + (-0.006 : ℝ)) * 0.93) =
        (0, -279 / 50000) := by
      rw [clampVel]
      norm_num [bW, hsq]
    rw [hcl]
    rw [bounceAxis, bounceAxis]
    norm_num [bW, bW2, cfgW]
  rw [hint]
  simp

/-- Witness for C4 at the concrete instance `cfgW`, `[bW]`: the hypothesis
(membership in the updated pool) holds of `bW2`, whose speed is under 4. -/
theorem updatePhysics_velocity_cap_witness :
    ((updatePhysics cfgW 0 ([bW], gridW)).1).get? 0 = some bW2 ∧
      Real.sqrt (bW2.vx ^ 2 + bW2.vy ^ 2) ≤ 4 :=
  ⟨updW_get, updatePhysics_velocity_cap cfgW 0 ([bW], gridW) 0 bW2 updW_get⟩

/-- Witness for C3 at the concrete instance `cfgW`, `[bW]`: all hypotheses
hold (`0.6 × 100 ≤ 1000 − 0.6 × 100`, `120 ≤ 460`) and the bounds follow. -/
theorem updatePhysics_position_radius_invariant_witness :
    (((updatePhysics cfgW 0 ([bW], gridW)).1).get? 0 = some bW2 ∧
      0.6 * bW2.r ≤ cfgW.width - 0.6 * bW2.r ∧ cfgW.radiusMin ≤ cfgW.radiusMax) ∧
    ((0.6 * bW2.r ≤ bW2.x ∧ bW2.x ≤ cfgW.width - 0.6 * bW2.r) ∧
      (0.6 * bW2.r ≤ bW2.y ∧ bW2.y ≤ cfgW.height - 0.6 * bW2.r) ∧
      ∀ t2 : ℝ, cfgW.radiusMin ≤ renderedRadius cfgW bW2 t2 ∧
        renderedRadius cfgW bW2 t2 ≤ cfgW.radiusMax) :=
  ⟨⟨updW_get, by norm_num [bW2, bW, cfgW], by norm_num [cfgW]⟩,
    updatePhysics_position_radius_invariant cfgW 0 ([bW], gridW) 0 bW2 updW_get
      (by norm_num [bW2, bW, cfgW]) (by norm_num [bW2, bW, cfgW]) (by norm_num [cfgW])⟩

/-- C6.  A scheduler tick with the host surface hidden performs no simulation
work and accumulates no time: the bubble pool, occupancy grid, canvas,
accumulated-time counter (indeed the whole state) are unchanged, and the
only effect is that a next tick is scheduled. -/
theorem frame_hidden_no_work (cfg : Cfg) (st : SimState) (t : ℝ) :
    frame cfg st t true = (st, true) := rfl

/-- C7 counterexample.  Resizing from `(100, 100)` to `(0, 0)` reallocates the
grid with `max(1, ceil(0/100)) = 1` column, not `ceil(0/100) = 0` columns as
the claim states. -/
theorem handleResize_zero_width_counterexample :
    (handleResize 100 100 (allocateGrid 100 100) 0 0).2.2.gridCols = 1 ∧
      Int.toNat ⌈(0 : ℝ) / gridCell⌉ = 0 := by
  constructor
  · have hne : ¬((0 : ℝ) = 100 ∧ (0 : ℝ) = 100) := by
      intro h
      exact absurd h.1 (by norm_num)
    rw [handleResize, if_neg hne]
    simp [allocateGrid]
  · simp [gridCell]

/-- C7 (amended).  After a resize that actually changes the dimensions, the
reallocated grid has exactly `max(1, ceil(w2/cellSize))` columns and
`max(1, ceil(h2/cellSize))` rows, and every cell's weight is zero. -/
theorem handleResize_grid_amended (w1 h1 w2 h2 : ℝ) (g : Grid)
    (hne : ¬(w2 = w1 ∧ h2 = h1)) :
    (handleResize w1 h1 g w2 h2).2.2.gridCols = max 1 (Int.toNat ⌈w2 / gridCell⌉) ∧
    (handleResize w1 h1 g w2 h2).2.2.gridRows = max 1 (Int.toNat ⌈h2 / gridCell⌉) ∧
    ∀ v ∈ (handleResize w1 h1 g w2 h2).2.2.data, v = 0 := by
  rw [handleResize, if_neg hne]
  refine ⟨rfl, rfl, ?_⟩
  intro v hv
  exact List.eq_of_mem_replicate hv

/-- Witness for C7 (amended): resizing from `(100, 100)` to `(250, 130)`
yields a `3 × 2` grid of zeroes. -/
theorem handleResize_grid_amended_witness :
    (handleResize 100 100 (allocateGrid 100 100) 250 130).2.2.gridCols = 3 ∧
    (handleResize 100 100 (allocateGrid 100 100) 250 130).2.2.gridRows = 2 ∧
    ∀ v ∈ (handleResize 100 100 (allocateGrid 100 100) 250 130).2.2.data, v = 0 := by
  have hne : ¬((250 : ℝ) = 100 ∧ (130 : ℝ) = 100) := by
    intro h
    exact absurd h.1 (by norm_num)
  have h := handleResize_grid_amended 100 100 250 130 (allocateGrid 100 100) hne
  have hc : ⌈(250 : ℝ) / gridCell⌉ = 3 := by
    rw [gridCell, Int.ceil_eq_iff]
    norm_num
  have hr : ⌈(130 : ℝ) / gridCell⌉ = 2 := by
    rw [gridCell, Int.ceil_eq_iff]
    norm_num
  refine ⟨?_, ?_, h.2.2⟩
  · rw [h.1, hc]
    rfl
  · rw [h.2.1, hr]
    rfl

end Bubbles

namespace Bubbles

/-- The pairwise spacing guarantee maintained by the placement loop. -/
def spacedOut (minDist : ℝ) (a b : Bubble) : Prop :=
  max ((a.r + b.r) * 0.6) minDist ≤ Real.sqrt ((a.x - b.x) ^ 2 + (a.y - b.y) ^ 2)

/-- Invariant of the placement loop: pairwise spacing and the pool-size bound
are preserved from the accumulator to the final pool. -/
theorem placeLoop_inv (cfg : Cfg) (minDist : ℝ) :
    ∀ (cands : List Cand) (acc : List Bubble),
      acc.Pairwise (spacedOut minDist) → acc.length ≤ cfg.count →
      (placeLoop cfg minDist cands acc).Pairwise (spacedOut minDist) ∧
        (placeLoop cfg minDist cands acc).length ≤ cfg.count := by
  intro cands
  induction cands with
  | nil => intro acc h1 h2; exact ⟨h1, h2⟩
  | cons c cs ih =>
    intro acc h1 h2
    rw [placeLoop]
    by_cases hlen : acc.length < cfg.count
    · rw [if_pos hlen]
      by_cases hok : ∀ b ∈ acc,
          ¬(Real.sqrt ((b.x - c.x) ^ 2 + (b.y - c.y) ^ 2) < (b.r + c.r) * 0.6 ∨
            Real.sqrt ((b.x - c.x) ^ 2 + (b.y - c.y) ^ 2) < minDist)
      · rw [if_pos hok]
        apply ih
        · rw [List.pairwise_append]
          refine ⟨h1, List.pairwise_singleton _ _, ?_⟩
          intro a ha nb hnb
          rw [List.mem_singleton] at hnb
          subst hnb
          have hd := hok a ha
          push_neg at hd
          have hbx : (buildBubble cfg acc.length c).x = c.x := rfl
          have hby : (buildBubble cfg acc.length c).y = c.y := rfl
          have hbr : (buildBubble cfg acc.length c).r = c.r := rfl
          rw [spacedOut, hbx, hby, hbr]
          exact max_le hd.1 hd.2
        · rw [List.length_append, List.length_singleton]
          omega
      · rw [if_neg hok]
        exact ih acc h1 h2
    · rw [if_neg hlen]
      exact ⟨h1, h2⟩

/-- C5.  When the placement loop finishes, every pair of distinct placed
bubbles is at Euclidean distance at least
`max((r_i + r_j) * 0.6, minDistanceFloor)` with
`minDistanceFloor = max(minRadius * 0.7, 120)`, and the pool holds at most
the requested `count` bubbles. -/
theorem placeBubbles_spacing_and_count (cfg : Cfg) (cands : List Cand) :
    ((placeBubbles cfg cands).Pairwise fun a b =>
      max ((a.r + b.r) * 0.6) (max (cfg.minRadius * 0.7) 120) ≤
        Real.sqrt ((a.x - b.x) ^ 2 + (a.y - b.y) ^ 2)) ∧
    (placeBubbles cfg cands).length ≤ cfg.count := by
  have h := placeLoop_inv cfg (minDistanceFloor cfg) cands []
    (List.Pairwise.nil) (by simp)
  rw [placeBubbles]
  exact ⟨h.1.imp (fun hab => by rw [spacedOut, minDistanceFloor] at hab; exact hab), h.2⟩

end Bubbles

namespace Colors

/-- A hexadecimal digit is in one of the three character ranges. -/
theorem hexDigitVal_ranges {c : Char} {v : ℕ} (h : hexDigitVal c = some v) :
    ('0' ≤ c ∧ c ≤ '9') ∨ ('a' ≤ c ∧ c ≤ 'f') ∨ ('A' ≤ c ∧ c ≤ 'F') := by
  unfold hexDigitVal at h
  split_ifs at h with h1 h2 h3
  · exact Or.inl h1
  · exact Or.inr (Or.inl h2)
  · exact Or.inr (Or.inr h3)

/-- A hexadecimal digit is none of the characters `parseInt`'s preprocessing
treats specially, and is not `#`. -/
theorem hexDigitVal_not_special {c : Char} {v : ℕ} (h : hexDigitVal c = some v) :
    c.isWhitespace = false ∧ c ≠ '-' ∧ c ≠ '+' ∧ c ≠ '#' ∧ c ≠ 'x' ∧ c ≠ 'X' := by
  have hc := hexDigitVal_ranges h
  refine ⟨?_, ?_, ?_, ?_, ?_, ?_⟩
  · have hw : c ≠ ' ' ∧ c ≠ '\t' ∧ c ≠ '\r' ∧ c ≠ '\n' := by
      refine ⟨?_, ?_, ?_, ?_⟩ <;>
        (rintro rfl; rcases hc with ⟨h1, h2⟩ | ⟨h1, h2⟩ | ⟨h1, h2⟩ <;> revert h1 h2 <;> decide)
    simp [Char.isWhitespace, hw.1, hw.2.1, hw.2.2.1, hw.2.2.2]
  all_goals (rintro rfl; rcases hc with ⟨h1, h2⟩ | ⟨h1, h2⟩ | ⟨h1, h2⟩ <;> revert h1 h2 <;> decide)

/-- A hexadecimal digit's value is under 16. -/
theorem hexDigitVal_lt_16 {c : Char} {v : ℕ} (h : hexDigitVal c = some v) : v < 16 := by
  have hc := hexDigitVal_ranges h
  unfold hexDigitVal at h
  split_ifs at h with h1 h2 h3 <;> injection h with h <;> subst h
  · have hl : 48 ≤ c.toNat := h1.1
    have hu : c.toNat ≤ 57 := h1.2
    have h0 : '0'.toNat = 48 := rfl
    omega
  · have hl : 97 ≤ c.toNat := h2.1
    have hu : c.toNat ≤ 102 := h2.2
    have h0 : 'a'.toNat = 97 := rfl
    omega
  · have hl : 65 ≤ c.toNat := h3.1
    have hu : c.toNat ≤ 70 := h3.2
    have h0 : 'A'.toNat = 65 := rfl
    omega

/-- `parseInt(s, 16)` on a two-hex-digit string is the two-digit value. -/
theorem jsParseIntHex_pair {a b : Char} {va vb : ℕ}
    (ha : hexDigitVal a = some va) (hb : hexDigitVal b = some vb) :
    jsParseIntHex (String.mk [a, b]) = some ((va * 16 + vb : ℕ) : ℤ) := by
  obtain ⟨hwa, hma, hpa, -, -, -⟩ := hexDigitVal_not_special ha
  obtain ⟨-, -, -, -, hxb, hXb⟩ := hexDigitVal_not_special hb
  unfold jsParseIntHex
  have hdata : (String.mk [a, b]).data = [a, b] := rfl
  rw [hdata]
  rw [List.dropWhile_cons_of_neg (by rw [hwa]; exact Bool.false_ne_true)]
  simp only [if_neg hma, if_neg hpa]
  rw [stripHexMark, if_neg (by rintro ⟨-, h2 | h2⟩; exacts [hxb h2, hXb h2])]
  simp [hexPrefixVal, ha, hb]

end Colors

namespace Colors

/-- Unfold a successful two-digit pair parse. -/
theorem hexPairVal_parts {a b : Char} {v : ℕ} (h : hexPairVal a b = some v) :
    ∃ va vb, hexDigitVal a = some va ∧ hexDigitVal b = some vb ∧ v = va * 16 + vb := by
  unfold hexPairVal at h
  cases ha : hexDigitVal a <;> rw [ha] at h
  · exact absurd h (by simp)
  cases hb : hexDigitVal b <;> rw [hb] at h
  · exact absurd h (by simp)
  exact ⟨_, _, rfl, rfl, (Option.some.inj h).symm⟩

/-- A well-formed hex color decomposes into a `#`-optional prefix and six
hexadecimal digit characters with the channel values of `specHexChannels`. -/
theorem specHexChannels_shape {s : String} {r g b : ℕ}
    (h : specHexChannels s = some (r, g, b)) :
    ∃ c1 c2 c3 c4 c5 c6,
      (s.data = ['#', c1, c2, c3, c4, c5, c6] ∨ s.data = [c1, c2, c3, c4, c5, c6]) ∧
      hexPairVal c1 c2 = some r ∧ hexPairVal c3 c4 = some g ∧ hexPairVal c5 c6 = some b := by
  unfold specHexChannels at h
  rcases hd : (if s.data.head? = some '#' then s.data.tail else s.data) with - | ⟨c1, t1⟩ <;>
    rw [hd] at h
  · exact absurd h (by simp)
  rcases t1 with - | ⟨c2, t2⟩
  · exact absurd h (by simp)
  rcases t2 with - | ⟨c3, t3⟩
  · exact absurd h (by simp)
  rcases t3 with - | ⟨c4, t4⟩
  · exact absurd h (by simp)
  rcases t4 with - | ⟨c5, t5⟩
  · exact absurd h (by simp)
  rcases t5 with - | ⟨c6, t6⟩
  · exact absurd h (by simp)
  rcases t6 with - | ⟨c7, t7⟩
  case cons.cons.cons.cons.cons.cons.cons => exact absurd h (by simp)
  have h2 : (match hexPairVal c1 c2, hexPairVal c3 c4, hexPairVal c5 c6 with
      | some rv, some gv, some bv => some (rv, gv, bv)
      | _, _, _ => none) = some (r, g, b) := h
  clear h
  cases hp1 : hexPairVal c1 c2 <;> rw [hp1] at h2
  · exact absurd h2 (by simp)
  cases hp2 : hexPairVal c3 c4 <;> rw [hp2] at h2
  · exact absurd h2 (by simp)
  cases hp3 : hexPairVal c5 c6 <;> rw [hp3] at h2
  · exact absurd h2 (by simp)
  obtain ⟨rfl, rfl, rfl⟩ : _ = r ∧ _ = g ∧ _ = b := by simpa using h2
  refine ⟨c1, c2, c3, c4, c5, c6, ?_, hp1, hp2, hp3⟩
  by_cases hh : s.data.head? = some '#'
  · rw [if_pos hh] at hd
    left
    cases hsd : s.data with
    | nil => rw [hsd] at hh; exact absurd hh (by simp)
    | cons c0 t =>
      rw [hsd] at hh hd
      simp only [List.head?_cons, Option.some.injEq] at hh
      simp only [List.tail_cons] at hd
      rw [hh, hd]
  · rw [if_neg hh] at hd
    right
    exact hd

end Colors

namespace Colors

/-- On a well-formed 6-digit hex color, `tint` multiplies each parsed channel
by the factor, clamps it to `[0, 255]`, and renders an `rgb(...)` string. -/
theorem tint_wellformed {color : String} {r g b : ℕ} (f : ℚ)
    (h : specHexChannels color = some (r, g, b)) :
    tint color f = "rgb(" ++ jsNumToString (clampQ (some ((r : ℚ) * f))) ++ ", " ++
      jsNumToString (clampQ (some ((g : ℚ) * f))) ++ ", " ++
      jsNumToString (clampQ (some ((b : ℚ) * f))) ++ ")" := by
  obtain ⟨c1, c2, c3, c4, c5, c6, hform, hp1, hp2, hp3⟩ := specHexChannels_shape h
  obtain ⟨v1, v2, hv1, hv2, hr⟩ := hexPairVal_parts hp1
  obtain ⟨v3, v4, hv3, hv4, hg⟩ := hexPairVal_parts hp2
  obtain ⟨v5, v6, hv5, hv6, hb⟩ := hexPairVal_parts hp3
  have hne : color ≠ "" := by
    intro he
    rw [he] at hform
    rcases hform with hf | hf <;> exact absurd hf (by simp)
  have hrm : removeFirstChar '#' color.data = [c1, c2, c3, c4, c5, c6] := by
    rcases hform with hf | hf <;> rw [hf]
    · simp [removeFirstChar]
    · simp [removeFirstChar, (hexDigitVal_not_special hv1).2.2.2.1,
        (hexDigitVal_not_special hv3).2.2.2.1, (hexDigitVal_not_special hv5).2.2.2.1,
        (hexDigitVal_not_special hv2).2.2.2.1, (hexDigitVal_not_special hv4).2.2.2.1,
        (hexDigitVal_not_special hv6).2.2.2.1]
  rw [tint, if_neg hne]
  rw [hrm]
  rw [if_neg (by simp)]
  have hs1 : jsSlice (String.mk [c1, c2, c3, c4, c5, c6]) 0 2 = String.mk [c1, c2] := rfl
  have hs2 : jsSlice (String.mk [c1, c2, c3, c4, c5, c6]) 2 4 = String.mk [c3, c4] := rfl
  have hs3 : jsSlice (String.mk [c1, c2, c3, c4, c5, c6]) 4 6 = String.mk [c5, c6] := rfl
  rw [hs1, hs2, hs3, jsParseIntHex_pair hv1 hv2, jsParseIntHex_pair hv3 hv4,
    jsParseIntHex_pair hv5 hv6]
  have harg1 : (((v1 * 16 + v2 : ℕ) : ℤ) : ℚ) * f = (r : ℚ) * f := by
    rw [hr]; push_cast; ring
  have harg2 : (((v3 * 16 + v4 : ℕ) : ℤ) : ℚ) * f = (g : ℚ) * f := by
    rw [hg]; push_cast; ring
  have harg3 : (((v5 * 16 + v6 : ℕ) : ℤ) : ℚ) * f = (b : ℚ) * f := by
    rw [hb]; push_cast; ring
  simp only [Option.map_some']
  rw [harg1, harg2, harg3]

end Colors

namespace Colors

/-- C8 counterexample.  `"1g2g3g"` is not a well-formed 6-digit hex string,
yet `tint` does not return it unchanged: JS `parseInt` reads the longest
hex-digit prefix of each 2-character slice, so the result is `rgb(1, 2, 3)`. -/
theorem tint_malformed_counterexample :
    specHexChannels "1g2g3g" = none ∧ tint "1g2g3g" 1 = "rgb(1, 2, 3)" ∧
      tint "1g2g3g" 1 ≠ "1g2g3g" := by
  have hv : tint "1g2g3g" 1 = "rgb(1, 2, 3)" := by
    simp +decide [tint, jsSlice, jsParseIntHex, stripHexMark, hexPrefixVal, hexDigitVal,
      removeFirstChar, clampQ, jsNumToString, qDecimalString, min_def, max_def]
  exact ⟨by decide, hv, by rw [hv]; decide⟩

/-- C8 (amended).  `tint` multiplies each channel of a well-formed 6-digit
hex color by the factor and clamps to `[0, 255]`; it returns the input
unchanged when the input is empty or when the string left after removing the
first `#` does not have exactly 6 characters (for other malformed 6-character
inputs it still emits an `rgb(...)` string via partial hex parsing, `NaN`
channels included); `tint('#808080', 1)` is `rgb(128, 128, 128)` and
`tint('bad', 1.5)` is `'bad'`. -/
theorem tint_amended :
    (∀ (color : String) (f : ℚ) (r g b : ℕ), specHexChannels color = some (r, g, b) →
      tint color f = "rgb(" ++ jsNumToString (clampQ (some ((r : ℚ) * f))) ++ ", " ++
        jsNumToString (clampQ (some ((g : ℚ) * f))) ++ ", " ++
        jsNumToString (clampQ (some ((b : ℚ) * f))) ++ ")") ∧
    (∀ (color : String) (f : ℚ),
      (String.mk (removeFirstChar '#' color.data)).length ≠ 6 → tint color f = color) ∧
    tint "#808080" 1 = "rgb(128, 128, 128)" ∧
    tint "bad" 1.5 = "bad" := by
  refine ⟨fun color f r g b h => tint_wellformed f h, fun color f hlen => ?_, ?_, ?_⟩
  · rw [tint]
    by_cases he : color = ""
    · rw [if_pos he]
    · rw [if_neg he, if_pos hlen]
  · simp +decide [tint, jsSlice, jsParseIntHex, stripHexMark, hexPrefixVal, hexDigitVal,
      removeFirstChar, clampQ, jsNumToString, qDecimalString, min_def, max_def]
  · simp +decide [tint, removeFirstChar]

/-- Witness for C8 (amended) at concrete inputs: `#0a141e` parses to channels
`(10, 20, 30)` and is tinted accordingly; `bad` keeps only 3 characters after
`#`-removal and passes through. -/
theorem tint_amended_witness :
    (specHexChannels "#0a141e" = some (10, 20, 30) ∧
      tint "#0a141e" 2 = "rgb(" ++ jsNumToString (clampQ (some ((10 : ℚ) * 2))) ++ ", " ++
        jsNumToString (clampQ (some ((20 : ℚ) * 2))) ++ ", " ++
        jsNumToString (clampQ (some ((30 : ℚ) * 2))) ++ ")") ∧
    ((String.mk (removeFirstChar '#' "bad".data)).length ≠ 6 ∧ tint "bad" 7 = "bad") :=
  ⟨⟨by decide, tint_amended.1 "#0a141e" 2 10 20 30 (by decide)⟩,
    ⟨by decide, tint_amended.2.1 "bad" 7 (by decide)⟩⟩

end Colors

namespace Colors

/-- Saturation stays within `[0, 1]` for channels normalised into `[0, 1]`
(the divisions' denominators are nonzero in the branch where they occur). -/
theorem hslSat_bounds (M m l : ℚ) (hm0 : 0 ≤ m) (hmM : m ≤ M) (hM1 : M ≤ 1)
    (hl : l = (M + m) / 2) :
    ∃ s : ℚ, hslSat (some M) (some m) (some l) (decide (M ≠ m)) = some s ∧
      0 ≤ s ∧ s ≤ 1 := by
  by_cases hne : M = m
  · refine ⟨0, ?_, le_refl 0, by norm_num⟩
    simp [hslSat, hne]
  · have hlt : m < M := lt_of_le_of_ne hmM (fun h => hne h.symm)
    rw [hslSat]
    rw [if_pos (by simp [hne])]
    by_cases hgt : (1 : ℚ) / 2 < l
    · have hsum : 1 < M + m := by
        rw [hl] at hgt
        linarith
      have hden : (0 : ℚ) < 2 - (M + m) := by
        have hm1 : m < 1 := lt_of_lt_of_le hlt hM1
        linarith
      rw [jGt, if_pos (by simpa using hgt)]
      rw [jSub, jAdd, jSub, jDiv, if_neg (by intro h; linarith)]
      refine ⟨(M - m) / (2 - (M + m)), rfl, ?_, ?_⟩
      · apply div_nonneg <;> linarith
      · rw [div_le_one (by linarith)]
        linarith
    · have hsum : M + m ≤ 1 := by
        rw [hl] at hgt
        push_neg at hgt
        linarith
      have hden : (0 : ℚ) < M + m := by
        by_contra hc
        push_neg at hc
        have hM0 : M ≤ 0 := by linarith
        linarith
      rw [jGt, if_neg (by simpa using hgt)]
      rw [jSub, jAdd, jDiv, if_neg (by linarith)]
      refine ⟨(M - m) / (M + m), rfl, ?_, ?_⟩
      · apply div_nonneg <;> linarith
      · rw [div_le_one hden]
        linarith

/-- The `switch`-selected hue value lies in `[0, 6)` when `max !== min`. -/
theorem hslHue_bounds (x y z M m : ℚ) (hM : M = max x (max y z))
    (hm : m = min x (min y z)) (hne : M ≠ m) :
    ∃ h : ℚ, hslHue (some x) (some y) (some z) (some M) (some m) (decide (M ≠ m)) = some h ∧
      0 ≤ h ∧ h < 6 := by
  have hxM : x ≤ M := by rw [hM]; exact le_max_left _ _
  have hyM : y ≤ M := by rw [hM]; exact le_trans (le_max_left _ _) (le_max_right _ _)
  have hzM : z ≤ M := by rw [hM]; exact le_trans (le_max_right _ _) (le_max_right _ _)
  have hmx : m ≤ x := by rw [hm]; exact min_le_left _ _
  have hmy : m ≤ y := by rw [hm]; exact le_trans (min_le_right _ _) (min_le_left _ _)
  have hmz : m ≤ z := by rw [hm]; exact le_trans (min_le_right _ _) (min_le_right _ _)
  have hmM : m ≤ M := le_trans hmx hxM
  have hlt : m < M := lt_of_le_of_ne hmM (fun h => hne h.symm)
  have hd : (0 : ℚ) < M - m := by linarith
  rw [hslHue, if_pos (by simp [hne])]
  by_cases h1 : M = x
  · rw [jStrictEq, if_pos (by simpa using h1)]
    by_cases h2 : y < z
    · rw [jLt, if_pos (by simpa using h2)]
      rw [jSub, jSub, jDiv, if_neg (by linarith), jAdd]
      refine ⟨(y - z) / (M - m) + 6, rfl, ?_, ?_⟩
      · have hge : -1 ≤ (y - z) / (M - m) := by
          rw [neg_le, ← neg_div, div_le_one hd]
          linarith
        linarith
      · have hlt0 : (y - z) / (M - m) < 0 := div_neg_of_neg_of_pos (by linarith) hd
        linarith
    · rw [jLt, if_neg (by simpa using h2)]
      rw [jSub, jSub, jDiv, if_neg (by linarith), jAdd]
      push_neg at h2
      refine ⟨(y - z) / (M - m) + 0, rfl, ?_, ?_⟩
      · have hge : 0 ≤ (y - z) / (M - m) := div_nonneg (by linarith) (le_of_lt hd)
        linarith
      · have hle : (y - z) / (M - m) ≤ 1 := by
          rw [div_le_one hd]
          linarith
        linarith
  · rw [jStrictEq, if_neg (by simpa using h1)]
    by_cases h2 : M = y
    · rw [jStrictEq, if_pos (by simpa using h2)]
      rw [jSub, jSub, jDiv, if_neg (by linarith), jAdd]
      refine ⟨(z - x) / (M - m) + 2, rfl, ?_, ?_⟩
      · have hge : -1 ≤ (z - x) / (M - m) := by
          rw [neg_le, ← neg_div, div_le_one hd]
          linarith
        linarith
      · have hle : (z - x) / (M - m) ≤ 1 := by
          rw [div_le_one hd]
          linarith
        linarith
    · rw [jStrictEq, if_neg (by simpa using h2)]
      have h3 : M = z := by
        rcases max_choice x (max y z) with hc | hc
        · exact absurd (hM.trans hc) h1
        · rcases max_choice y z with hc2 | hc2
          · exact absurd (hM.trans (hc.trans hc2)) h2
          · exact hM.trans (hc.trans hc2)
      rw [jStrictEq, if_pos (by simpa using h3)]
      rw [jSub, jSub, jDiv, if_neg (by linarith), jAdd]
      refine ⟨(x - y) / (M - m) + 4, rfl, ?_, ?_⟩
      · have hge : -1 ≤ (x - y) / (M - m) := by
          rw [neg_le, ← neg_div, div_le_one hd]
          linarith
        linarith
      · have hle : (x - y) / (M - m) ≤ 1 := by
          rw [div_le_one hd]
          linarith
        linarith

/-- For numeric channels in `[0, 255]`, the HSL conversion yields a numeric
triple with hue in `[0, 360)` and saturation/lightness percentages in
`[0, 100]`. -/
theorem hslCore_bounds (r g b : ℚ) (hr0 : 0 ≤ r) (hr1 : r ≤ 255) (hg0 : 0 ≤ g)
    (hg1 : g ≤ 255) (hb0 : 0 ≤ b) (hb1 : b ≤ 255) :
    ∃ hh ss ll : ℚ, hslCore (some r) (some g) (some b) = (some hh, some ss, some ll) ∧
      0 ≤ hh ∧ hh < 360 ∧ 0 ≤ ss ∧ ss ≤ 100 ∧ 0 ≤ ll ∧ ll ≤ 100 := by
  have h255 : ¬(255 : ℚ) = 0 := by norm_num
  rw [hslCore]
  simp only [jDiv, if_neg h255]
  set x := r / 255 with hxdef
  set y := g / 255 with hydef
  set z := b / 255 with hzdef
  have hx0 : 0 ≤ x := div_nonneg hr0 (by norm_num)
  have hx1 : x ≤ 1 := by rw [hxdef, div_le_one (by norm_num)]; linarith
  have hy0 : 0 ≤ y := div_nonneg hg0 (by norm_num)
  have hy1 : y ≤ 1 := by rw [hydef, div_le_one (by norm_num)]; linarith
  have hz0 : 0 ≤ z := div_nonneg hb0 (by norm_num)
  have hz1 : z ≤ 1 := by rw [hzdef, div_le_one (by norm_num)]; linarith
  simp only [jMax3, jMin3, jAdd, jStrictNe]
  set M := max x (max y z) with hMdef
  set m := min x (min y z) with hmdef
  have hmM : m ≤ M :=
    le_trans (min_le_left _ _) (le_max_left _ _)
  have hM1 : M ≤ 1 := max_le hx1 (max_le hy1 hz1)
  have hm0 : 0 ≤ m := le_min hx0 (le_min hy0 hz0)
  have h2 : ¬(2 : ℚ) = 0 := by norm_num
  simp only [jDiv, if_neg h2]
  have hl0 : 0 ≤ (M + m) / 2 := by positivity
  have hl1 : (M + m) / 2 ≤ 1 := by
    rw [div_le_one (by norm_num)]
    linarith
  by_cases hne : M = m
  · have hdec : decide (M ≠ m) = false := by simp [hne]
    rw [hdec]
    rw [hslHue, hslSat]
    simp only [Bool.false_eq_true, if_false]
    refine ⟨0, 0, (M + m) / 2 * 100, ?_, le_refl 0, by norm_num, le_refl 0, by norm_num,
      by positivity, ?_⟩
    · simp [jDiv, jMul]
    · nlinarith
  · have hdec : decide (M ≠ m) = true := by simp [hne]
    obtain ⟨hv, hhue, hh0, hh6⟩ := hslHue_bounds x y z M m hMdef hmdef hne
    obtain ⟨sv, hsat, hs0, hs1⟩ := hslSat_bounds M m ((M + m) / 2) hm0 hmM hM1 rfl
    rw [hdec] at hhue hsat
    rw [hdec, hhue, hsat]
    have h6 : ¬(6 : ℚ) = 0 := by norm_num
    simp only [jDiv, if_neg h6, jMul]
    refine ⟨hv / 6 * 360, sv * 100, (M + m) / 2 * 100, rfl, ?_, ?_, ?_, ?_, by positivity, ?_⟩
    · positivity
    · have : hv / 6 < 1 := by
        rw [div_lt_one (by norm_num)]
        linarith
      nlinarith
    · positivity
    · nlinarith
    · nlinarith

/-- C9 counterexample.  `"#zzzzzz"` is neither a `#rrggbb` form (its digits
are not hexadecimal) nor an `rgb(...)` form, yet `rgbToHslTuple` does not
return the null sentinel: it returns a triple whose saturation and lightness
components are `NaN`. -/
theorem rgbToHslTuple_nan_counterexample :
    rgbToHslTuple "#zzzzzz" = some (some 0, none, none) ∧
      rgbToHslTuple "#zzzzzz" ≠ none := by
  have hv : rgbToHslTuple "#zzzzzz" = some (some 0, none, none) := by
    simp +decide [rgbToHslTuple, jsStartsWith, jsSlice, jsParseIntHex, stripHexMark,
      hexPrefixVal, hexDigitVal, hslCore, hslHue, hslSat, jDiv, jAdd, jSub, jMul,
      jMax3, jMin3, jStrictNe, jStrictEq, jGt, jLt]
  exact ⟨hv, by rw [hv]; simp⟩

/-- C9 (amended).  `rgbToHslTuple` is total and returns the null sentinel
exactly when the input neither starts with `#` at length 7 nor starts with
`rgb` (an if-and-only-if); for a well-formed `#rrggbb` input, and likewise
for an `rgb(...)` input whose first three regex-scraped number tokens are
numeric values in `[0, 255]`, the triple is numeric with hue in `[0, 360)`
and saturation/lightness percentages in `[0, 100]`; inputs inside those two
syntactic families that are not well-formed can yield `NaN` components.
`rgbToHslTuple('#ff0000')` and `rgbToHslTuple('rgb(255, 0, 0)')` are both
`(0, 100, 50)`. -/
theorem rgbToHslTuple_amended :
    (∀ color : String, rgbToHslTuple color = none ↔
      (¬(jsStartsWith color ['#'] = true ∧ color.length = 7) ∧
        ¬(jsStartsWith color ['r', 'g', 'b'] = true))) ∧
    (∀ (color : String) (r g b : ℕ), specHexChannels color = some (r, g, b) →
      color.data.head? = some '#' →
      ∃ hh ss ll : ℚ, rgbToHslTuple color = some (some hh, some ss, some ll) ∧
        0 ≤ hh ∧ hh < 360 ∧ 0 ≤ ss ∧ ss ≤ 100 ∧ 0 ≤ ll ∧ ll ≤ 100) ∧
    (∀ (color : String) (r g b : ℚ),
      jsStartsWith color ['r', 'g', 'b'] = true →
      ((numRunsAux color.data []).map jsNumberOfRun).get? 0 = some (some r) →
      ((numRunsAux color.data []).map jsNumberOfRun).get? 1 = some (some g) →
      ((numRunsAux color.data []).map jsNumberOfRun).get? 2 = some (some b) →
      0 ≤ r → r ≤ 255 → 0 ≤ g → g ≤ 255 → 0 ≤ b → b ≤ 255 →
      ∃ hh ss ll : ℚ, rgbToHslTuple color = some (some hh, some ss, some ll) ∧
        0 ≤ hh ∧ hh < 360 ∧ 0 ≤ ss ∧ ss ≤ 100 ∧ 0 ≤ ll ∧ ll ≤ 100) ∧
    rgbToHslTuple "#ff0000" = some (some 0, some 100, some 50) ∧
    rgbToHslTuple "rgb(255, 0, 0)" = some (some 0, some 100, some 50) := by
  refine ⟨?_, ?_, ?_, ?_, ?_⟩
  · intro color
    rw [rgbToHslTuple]
    split_ifs with h1 h2
    · exact iff_of_false (by simp) (fun hc => hc.1 h1)
    · exact iff_of_false (by simp) (fun hc => hc.2 h2)
    · exact iff_of_true rfl ⟨h1, h2⟩
  · intro color r g b hspec hhead
    obtain ⟨c1, c2, c3, c4, c5, c6, hform, hp1, hp2, hp3⟩ := specHexChannels_shape hspec
    obtain ⟨v1, v2, hv1, hv2, hr⟩ := hexPairVal_parts hp1
    obtain ⟨v3, v4, hv3, hv4, hg⟩ := hexPairVal_parts hp2
    obtain ⟨v5, v6, hv5, hv6, hb⟩ := hexPairVal_parts hp3
    have hdata : color.data = ['#', c1, c2, c3, c4, c5, c6] := by
      rcases hform with hf | hf
      · exact hf
      · rw [hf] at hhead
        simp only [List.head?_cons, Option.some.injEq] at hhead
        exact absurd hhead (hexDigitVal_not_special hv1).2.2.2.1
    have hsw : jsStartsWith color ['#'] = true := by
      simp [jsStartsWith, hdata, List.isPrefixOf]
    have hlen : color.length = 7 := by
      have h0 : color.length = color.data.length := rfl
      rw [h0, hdata]
      rfl
    rw [rgbToHslTuple, if_pos ⟨hsw, hlen⟩]
    have hs1 : jsSlice color 1 3 = String.mk [c1, c2] := by
      rw [jsSlice, hdata]
      rfl
    have hs2 : jsSlice color 3 5 = String.mk [c3, c4] := by
      rw [jsSlice, hdata]
      rfl
    have hs3 : jsSlice color 5 7 = String.mk [c5, c6] := by
      rw [jsSlice, hdata]
      rfl
    rw [hs1, hs2, hs3, jsParseIntHex_pair hv1 hv2, jsParseIntHex_pair hv3 hv4,
      jsParseIntHex_pair hv5 hv6]
    simp only [Option.map_some']
    have hc1 : (((v1 * 16 + v2 : ℕ) : ℤ) : ℚ) = ((r : ℕ) : ℚ) := by
      rw [hr]; push_cast; ring
    have hc2 : (((v3 * 16 + v4 : ℕ) : ℤ) : ℚ) = ((g : ℕ) : ℚ) := by
      rw [hg]; push_cast; ring
    have hc3 : (((v5 * 16 + v6 : ℕ) : ℤ) : ℚ) = ((b : ℕ) : ℚ) := by
      rw [hb]; push_cast; ring
    rw [hc1, hc2, hc3]
    have hrb : (r : ℚ) ≤ 255 := by
      have b1 := hexDigitVal_lt_16 hv1
      have b2 := hexDigitVal_lt_16 hv2
      rw [hr]
      push_cast
      have : (v1 : ℚ) ≤ 15 := by exact_mod_cast Nat.le_of_lt_succ b1
      have : (v2 : ℚ) ≤ 15 := by exact_mod_cast Nat.le_of_lt_succ b2
      linarith
    have hgb : (g : ℚ) ≤ 255 := by
      have b1 := hexDigitVal_lt_16 hv3
      have b2 := hexDigitVal_lt_16 hv4
      rw [hg]
      push_cast
      have : (v3 : ℚ) ≤ 15 := by exact_mod_cast Nat.le_of_lt_succ b1
      have : (v4 : ℚ) ≤ 15 := by exact_mod_cast Nat.le_of_lt_succ b2
      linarith
    have hbb : (b : ℚ) ≤ 255 := by
      have b1 := hexDigitVal_lt_16 hv5
      have b2 := hexDigitVal_lt_16 hv6
      rw [hb]
      push_cast
      have : (v5 : ℚ) ≤ 15 := by exact_mod_cast Nat.le_of_lt_succ b1
      have : (v6 : ℚ) ≤ 15 := by exact_mod_cast Nat.le_of_lt_succ b2
      linarith
    obtain ⟨hh, ss, ll, heq, hbnds⟩ := hslCore_bounds (r : ℚ) (g : ℚ) (b : ℚ)
      (by positivity) hrb (by positivity) hgb (by positivity) hbb
    exact ⟨hh, ss, ll, by rw [heq], hbnds⟩
  · intro color r g b hrgb h0 h1 h2 hr0 hr1 hg0 hg1 hb0 hb1
    obtain ⟨t, ht⟩ := List.isPrefixOf_iff_prefix.mp hrgb
    have hnot : ¬(jsStartsWith color ['#'] = true ∧ color.length = 7) := by
      rintro ⟨hhash, -⟩
      rw [jsStartsWith, ← ht] at hhash
      simp [List.isPrefixOf] at hhash
    have hred : rgbToHslTuple color = some (hslCore (some r) (some g) (some b)) := by
      rw [rgbToHslTuple, if_neg hnot, if_pos hrgb]
      simp only [h0, h1, h2, Option.getD_some]
    obtain ⟨hh, ss, ll, heq, hbnds⟩ := hslCore_bounds r g b hr0 hr1 hg0 hg1 hb0 hb1
    exact ⟨hh, ss, ll, by rw [hred, heq], hbnds⟩
  · have hred : rgbToHslTuple "#ff0000" =
        some (hslCore (some 255) (some 0) (some 0)) := by
      simp +decide [rgbToHslTuple, jsStartsWith, jsSlice, jsParseIntHex, stripHexMark,
        hexPrefixVal, hexDigitVal]
    rw [hred]
    norm_num [hslCore, hslSat, hslHue, jDiv, jAdd, jSub, jMul, jMax3, jMin3,
      jStrictNe, jStrictEq, jGt, jLt, max_def, min_def]
  · have hred : rgbToHslTuple "rgb(255, 0, 0)" =
        some (hslCore (some 255) (some 0) (some 0)) := by
      rw [rgbToHslTuple, if_neg (by decide), if_pos (by decide),
        show (List.map jsNumberOfRun (numRunsAux ("rgb(255, 0, 0)" : String).data [])) =
          [some 255, some 0, some 0] from by decide]
      rfl
    rw [hred]
    norm_num [hslCore, hslSat, hslHue, jDiv, jAdd, jSub, jMul, jMax3, jMin3,
      jStrictNe, jStrictEq, jGt, jLt, max_def, min_def]

/-- Witness for C9 (amended): the fallback branch at `"xyz"`, the well-formed
hex branch at `"#0a141e"`, and the `rgb(...)` branch at `"rgb(10, 20, 30)"`. -/
theorem rgbToHslTuple_amended_witness :
    ((¬(jsStartsWith "xyz" ['#'] = true ∧ ("xyz" : String).length = 7) ∧
        ¬(jsStartsWith "xyz" ['r', 'g', 'b'] = true)) ∧
      rgbToHslTuple "xyz" = none) ∧
    (specHexChannels "#0a141e" = some (10, 20, 30) ∧
      ("#0a141e" : String).data.head? = some '#' ∧
      ∃ hh ss ll : ℚ, rgbToHslTuple "#0a141e" = some (some hh, some ss, some ll) ∧
        0 ≤ hh ∧ hh < 360 ∧ 0 ≤ ss ∧ ss ≤ 100 ∧ 0 ≤ ll ∧ ll ≤ 100) ∧
    (jsStartsWith "rgb(10, 20, 30)" ['r', 'g', 'b'] = true ∧
      ((numRunsAux ("rgb(10, 20, 30)" : String).data []).map jsNumberOfRun).get? 0 =
        some (some 10) ∧
      ((numRunsAux ("rgb(10, 20, 30)" : String).data []).map jsNumberOfRun).get? 1 =
        some (some 20) ∧
      ((numRunsAux ("rgb(10, 20, 30)" : String).data []).map jsNumberOfRun).get? 2 =
        some (some 30) ∧
      ∃ hh ss ll : ℚ, rgbToHslTuple "rgb(10, 20, 30)" = some (some hh, some ss, some ll) ∧
        0 ≤ hh ∧ hh < 360 ∧ 0 ≤ ss ∧ ss ≤ 100 ∧ 0 ≤ ll ∧ ll ≤ 100) :=
  ⟨⟨⟨by decide, by decide⟩, (rgbToHslTuple_amended.1 "xyz").mpr ⟨by decide, by decide⟩⟩,
    ⟨by decide, by decide,
      rgbToHslTuple_amended.2.1 "#0a141e" 10 20 30 (by decide) (by decide)⟩,
    ⟨by decide, by decide, by decide, by decide,
      rgbToHslTuple_amended.2.2.1 "rgb(10, 20, 30)" 10 20 30 (by decide) (by decide) (by decide)
        (by decide) (by norm_num) (by norm_num) (by norm_num) (by norm_num)
        (by norm_num) (by norm_num)⟩⟩


end Colors

namespace Likes

/-- The database steps of the likes `POST` handler that can fail, in source
order: the rate-limit `SELECT`, the `SELECT count` of the rate-limited
branch, `beginTransaction`, the two `INSERT`s, the `SELECT count` inside the
transaction, and `commit`. -/
inductive Step
  | selLimit
  | selCount429
  | beginTx
  | insEvent
  | insLike
  | selCount
  | commitTx
deriving DecidableEq

/-- Operations performed on the pooled connection, in the order they are
awaited; the trace lets the rollback-before-release ordering be stated. -/
inductive ConnOp
  | execSelLimit
  | execSelCount429
  | opBegin
  | execInsEvent
  | execInsLike
  | execSelCount
  | opCommit
  | opRollback
  | opRelease
deriving DecidableEq

/-- The stored state: `blog_likes` (primary key `slug`, a count per slug) and
`blog_like_events` (primary key `(slug, ip, day)`); days are abstracted to
naturals (`CURDATE()` is the `today` parameter). -/
structure LikesDB where
  likes : List (String × ℕ)
  events : List (String × String × ℕ)
deriving DecidableEq

/-- `SELECT count FROM blog_likes WHERE slug = ?`, with the handler's
`rows[0]?.count ?? 0` defaulting. -/
def getCount (db : LikesDB) (slug : String) : ℕ :=
  match db.likes.find? (fun p => p.1 == slug) with
  | some p => p.2
  | none => 0

/-- `SELECT 1 FROM blog_like_events WHERE slug = ? AND ip = ? AND day = CURDATE()`. -/
def eventExists (db : LikesDB) (slug ip : String) (day : ℕ) : Bool :=
  db.events.any (fun e => e.1 == slug && e.2.1 == ip && e.2.2 == day)

/-- `INSERT INTO blog_like_events ... ON DUPLICATE KEY UPDATE slug = slug`:
a no-op when the `(slug, ip, day)` key exists. -/
def insertEvent (db : LikesDB) (slug ip : String) (day : ℕ) : LikesDB :=
  if eventExists db slug ip day then db
  else { db with events := db.events ++ [(slug, ip, day)] }

/-- `INSERT INTO blog_likes (slug, count) VALUES (?, 1) ON DUPLICATE KEY
UPDATE count = count + 1`. -/
def upsertLike (db : LikesDB) (slug : String) : LikesDB :=
  match db.likes.find? (fun p => p.1 == slug) with
  | some _ =>
    { db with likes := db.likes.map (fun p => if p.1 == slug then (p.1, p.2 + 1) else p) }
  | none => { db with likes := db.likes ++ [(slug, 1)] }

/-- An HTTP response: status and, when the body carries one, the count. -/
structure HttpResult where
  status : ℕ
  count : Option ℕ
deriving DecidableEq

/-- The likes `POST` handler over a validated request, with one injectable
failing step (`failAt`): slug validation, the per-IP-per-day rate limit, and
the transactional increment.  Transaction semantics: writes after
`beginTransaction` act on a pending copy and reach the stored state only at
`commit`; on any thrown step the `finally` block rolls back (discarding the
pending copy) and then releases the connection, and the outer catch answers
500.  Returns the response, the stored state after the request, and the
trace of connection operations. -/
def postLike (db : LikesDB) (slug ip : String) (today : ℕ) (failAt : Option Step) :
    HttpResult × LikesDB × List ConnOp :=
  if slug = "" then (⟨400, none⟩, db, [])
  else if 191 < slug.length then (⟨400, none⟩, db, [])
  else if failAt = some Step.selLimit then
    (⟨500, none⟩, db, [ConnOp.execSelLimit, ConnOp.opRollback, ConnOp.opRelease])
  else if eventExists db slug ip today then
    if failAt = some Step.selCount429 then
      (⟨500, none⟩, db,
        [ConnOp.execSelLimit, ConnOp.execSelCount429, ConnOp.opRollback, ConnOp.opRelease])
    else
      (⟨429, some (getCount db slug)⟩, db,
        [ConnOp.execSelLimit, ConnOp.execSelCount429, ConnOp.opRollback, ConnOp.opRelease])
  else if failAt = some Step.beginTx then
    (⟨500, none⟩, db,
      [ConnOp.execSelLimit, ConnOp.opBegin, ConnOp.opRollback, ConnOp.opRelease])
  else if failAt = some Step.insEvent then
    (⟨500, none⟩, db,
      [ConnOp.execSelLimit, ConnOp.opBegin, ConnOp.execInsEvent, ConnOp.opRollback,
        ConnOp.opRelease])
  else
    let db1 := insertEvent db slug ip today
    if failAt = some Step.insLike then
      (⟨500, none⟩, db,
        [ConnOp.execSelLimit, ConnOp.opBegin, ConnOp.execInsEvent, ConnOp.execInsLike,
          ConnOp.opRollback, ConnOp.opRelease])
    else
      let db2 := upsertLike db1 slug
      if failAt = some Step.selCount then
        (⟨500, none⟩, db,
          [ConnOp.execSelLimit, ConnOp.opBegin, ConnOp.execInsEvent, ConnOp.execInsLike,
            ConnOp.execSelCount, ConnOp.opRollback, ConnOp.opRelease])
      else if failAt = some Step.commitTx then
        (⟨500, none⟩, db,
          [ConnOp.execSelLimit, ConnOp.opBegin, ConnOp.execInsEvent, ConnOp.execInsLike,
            ConnOp.execSelCount, ConnOp.opCommit, ConnOp.opRollback, ConnOp.opRelease])
      else
        (⟨200, some (getCount db2 slug)⟩, db2,
          [ConnOp.execSelLimit, ConnOp.opBegin, ConnOp.execInsEvent, ConnOp.execInsLike,
            ConnOp.execSelCount, ConnOp.opCommit, ConnOp.opRelease])

end Likes

namespace Likes

/-- C10.  The like increment is atomic and rate-limited: whenever a step
after `beginTransaction` fails (either `INSERT`, the in-transaction
`SELECT count`, or `commit` itself), the handler answers 500 with the stored
state unchanged and the rollback happens strictly before the connection is
released; and when a like event for `(slug, ip, today)` already exists, the
handler answers 429 carrying the current count and performs no writes. -/
theorem postLike_atomic_and_rate_limited :
    (∀ (db : LikesDB) (slug ip : String) (today : ℕ) (s : Step),
      slug ≠ "" → ¬191 < slug.length → eventExists db slug ip today = false →
      (s = Step.insEvent ∨ s = Step.insLike ∨ s = Step.selCount ∨ s = Step.commitTx) →
      (postLike db slug ip today (some s)).1.status = 500 ∧
      (postLike db slug ip today (some s)).2.1 = db ∧
      ∃ pre, (postLike db slug ip today (some s)).2.2 =
        pre ++ [ConnOp.opRollback, ConnOp.opRelease]) ∧
    (∀ (db : LikesDB) (slug ip : String) (today : ℕ),
      slug ≠ "" → ¬191 < slug.length → eventExists db slug ip today = true →
      (postLike db slug ip today none).1 = ⟨429, some (getCount db slug)⟩ ∧
      (postLike db slug ip today none).2.1 = db) := by
  constructor
  · intro db slug ip today s h1 h2 hev hs
    rcases hs with rfl | rfl | rfl | rfl
    · exact ⟨by simp [postLike, h1, h2, hev], by simp [postLike, h1, h2, hev],
        [ConnOp.execSelLimit, ConnOp.opBegin, ConnOp.execInsEvent],
        by simp [postLike, h1, h2, hev]⟩
    · exact ⟨by simp [postLike, h1, h2, hev], by simp [postLike, h1, h2, hev],
        [ConnOp.execSelLimit, ConnOp.opBegin, ConnOp.execInsEvent, ConnOp.execInsLike],
        by simp [postLike, h1, h2, hev]⟩
    · exact ⟨by simp [postLike, h1, h2, hev], by simp [postLike, h1, h2, hev],
        [ConnOp.execSelLimit, ConnOp.opBegin, ConnOp.execInsEvent, ConnOp.execInsLike,
          ConnOp.execSelCount],
        by simp [postLike, h1, h2, hev]⟩
    · exact ⟨by simp [postLike, h1, h2, hev], by simp [postLike, h1, h2, hev],
        [ConnOp.execSelLimit, ConnOp.opBegin, ConnOp.execInsEvent, ConnOp.execInsLike,
          ConnOp.execSelCount, ConnOp.opCommit],
        by simp [postLike, h1, h2, hev]⟩
  · intro db slug ip today h1 h2 hev
    constructor <;> simp [postLike, h1, h2, hev]

/-- Witness for C10 at a concrete store: one prior like for another slug and
an existing event for `(post-1, 9.9.9.9, day 20)`. -/
theorem postLike_atomic_and_rate_limited_witness :
    (("post-1" : String) ≠ "" ∧ ¬191 < ("post-1" : String).length ∧
      eventExists ⟨[("other", 3)], []⟩ "post-1" "1.2.3.4" 20 = false ∧
      ((postLike ⟨[("other", 3)], []⟩ "post-1" "1.2.3.4" 20 (some Step.insLike)).1.status = 500 ∧
        (postLike ⟨[("other", 3)], []⟩ "post-1" "1.2.3.4" 20 (some Step.insLike)).2.1 =
          ⟨[("other", 3)], []⟩ ∧
        ∃ pre, (postLike ⟨[("other", 3)], []⟩ "post-1" "1.2.3.4" 20 (some Step.insLike)).2.2 =
          pre ++ [ConnOp.opRollback, ConnOp.opRelease])) ∧
    (eventExists ⟨[("post-1", 7)], [("post-1", "9.9.9.9", 20)]⟩ "post-1" "9.9.9.9" 20 = true ∧
      (postLike ⟨[("post-1", 7)], [("post-1", "9.9.9.9", 20)]⟩ "post-1" "9.9.9.9" 20 none).1 =
        ⟨429, some 7⟩ ∧
      (postLike ⟨[("post-1", 7)], [("post-1", "9.9.9.9", 20)]⟩ "post-1" "9.9.9.9" 20 none).2.1 =
        ⟨[("post-1", 7)], [("post-1", "9.9.9.9", 20)]⟩) := by
  have h1 := postLike_atomic_and_rate_limited.1 ⟨[("other", 3)], []⟩ "post-1" "1.2.3.4" 20
    Step.insLike (by decide) (by decide) (by decide) (Or.inr (Or.inl rfl))
  have h2 := postLike_atomic_and_rate_limited.2 ⟨[("post-1", 7)], [("post-1", "9.9.9.9", 20)]⟩
    "post-1" "9.9.9.9" 20 (by decide) (by decide) (by decide)
  refine ⟨⟨by decide, by decide, by decide, h1⟩, ⟨by decide, ?_, h2.2⟩⟩
  rw [h2.1]
  decide

end Likes

namespace Bubbles

/-- First bubble of the force-order scenario: right of its home at `(400, 540)`
with rightward velocity, on the frame-0 attraction row (`ty = 540`). -/
def b0C : Bubble :=
  { bW with x := 400, y := 540, vx := 1, vy := 0, jitter := 1, homeX := 400, homeY := 540 }

/-- Second bubble of the force-order scenario, at `(503, 460)`: just beyond
separation range (distance `sqrt(103² + 80²) ≈ 130.4 > 130`) of the first
bubble's pre-update position, but inside range of its post-update position. -/
def b1C : Bubble :=
  { bW with x := 503, y := 460, vx := 0, vy := 0, jitter := 1, homeX := 503, homeY := 460 }

/-- The frame globals of the scenario at `t = 0`: target `(500, 540)`,
centroid balance `((500 - 451.5)/1000)·0.25 = 0.012125` and `0`. -/
noncomputable def glC : Globals :=
  { t := 0, tx := 500, ty := 540, balanceX := 0.012125, balanceY := 0 }

/-- The first bubble's post-update velocity: flow `2`, coverage
`(100/100.001)·0.015`, balance `0.012125`, then damping `0.93`; about 2.815. -/
noncomputable def VX0C : ℝ :=
  (1 + (2 + 100 / 100.001 * 0.015 + 0.012125)) * 0.93

/-- The first bubble after its integration step: moved right by `VX0C`. -/
noncomputable def b0Cafter : Bubble :=
  { b0C with x := 400 + VX0C, vx := VX0C }

/-- Coverage-force denominator for the second bubble: `hypot(-3, 80) + 0.001`. -/
noncomputable def D1C : ℝ := Real.sqrt 6409 + 0.001

/-- Coverage force (x) on the second bubble. -/
noncomputable def cx1C : ℝ := -3 / D1C * 0.015

/-- Coverage force (y) on the second bubble. -/
noncomputable def cy1C : ℝ := 80 / D1C * 0.015

/-- Horizontal gap from the updated first bubble to the second (about 100.18). -/
noncomputable def dxC : ℝ := 503 - (400 + VX0C)

/-- Distance from the updated first bubble to the second (about 128.2 < 130). -/
noncomputable def dC : ℝ := Real.sqrt (dxC * dxC + 6400)

/-- Separation overlap ratio for that pair. -/
noncomputable def pushC : ℝ := (130 - dC) / 130

/-- Separation force (x) received by the second bubble in the in-place
update: strictly positive. -/
noncomputable def sxC : ℝ := dxC / dC * pushC * 1.8

/-- Separation force (y) received by the second bubble in the in-place update. -/
noncomputable def syC : ℝ := -80 / dC * pushC * 1.8

end Bubbles

namespace Bubbles

theorem sqrt10000 : Real.sqrt 10000 = 100 := by
  rw [show (10000 : ℝ) = 100 ^ 2 by norm_num, Real.sqrt_sq (by norm_num : (0 : ℝ) ≤ 100)]

theorem VX0C_bounds : 2.81 < VX0C ∧ VX0C < 2.82 := by
  constructor <;> norm_num [VX0C]

theorem glC_updatePhysics :
    updatePhysics cfgW 0 ([b0C, b1C], gridW) = physLoop cfgW glC 2 0 ([b0C, b1C], gridW) := by
  rw [updatePhysics]
  norm_num [lowestOccupancyTarget, cfgW, b0C, b1C, bW, glC, Real.sin_zero, Real.cos_zero,
    max_self, max_eq_left, List.map_cons, List.map_nil, List.sum_cons, List.sum_nil]

theorem glC_updatePhysicsSnapshot :
    updatePhysicsSnapshot cfgW 0 ([b0C, b1C], gridW) =
      ((([b0C, b1C].mapIdx (fun i b => integrateBubble cfgW glC [b0C, b1C] i b))),
        ([b0C, b1C].mapIdx (fun i b => integrateBubble cfgW glC [b0C, b1C] i b)).foldl
          (fun g b => stampOccupancy g b.x b.y (b.r * 0.6)) gridW) := by
  rw [updatePhysicsSnapshot]
  norm_num [lowestOccupancyTarget, cfgW, b0C, b1C, bW, glC, Real.sin_zero, Real.cos_zero,
    max_self, max_eq_left, List.map_cons, List.map_nil, List.sum_cons, List.sum_nil]

theorem F0_eval : totalForce cfgW glC [b0C, b1C] 0 b0C =
    (2 + 100 / 100.001 * 0.015 + 0.012125, 0) := by
  rw [totalForce, separationForce]
  simp only [sepLoop]
  norm_num [cfgW, b0C, b1C, bW, glC, Real.cos_zero, Real.sin_zero, sqrt10000]

end Bubbles

namespace Bubbles

theorem B0_eval : integrateBubble cfgW glC [b0C, b1C] 0 b0C = b0Cafter := by
  rw [integrateBubble, F0_eval]
  have hvx : (b0C.vx + (2 + 100 / 100.001 * 0.015 + 0.012125 : ℝ)) * 0.93 = VX0C := by
    norm_num [b0C, bW, VX0C]
  have hvy : (b0C.vy + (0 : ℝ)) * 0.93 = 0 := by
    norm_num [b0C, bW]
  rw [hvx, hvy]
  have hcl : clampVel VX0C 0 = (VX0C, 0) := by
    rw [clampVel]
    rw [show (VX0C * VX0C + 0 * 0 : ℝ) = VX0C ^ 2 by ring,
      Real.sqrt_sq (by norm_num [VX0C] : (0 : ℝ) ≤ VX0C)]
    rw [if_neg (by norm_num [VX0C])]
  rw [hcl]
  rw [bounceAxis, bounceAxis]
  norm_num [b0C, bW, b0Cafter, cfgW, VX0C]

end Bubbles

namespace Bubbles

theorem seq_list_eval : (updatePhysics cfgW 0 ([b0C, b1C], gridW)).1 =
    [b0Cafter, integrateBubble cfgW glC [b0Cafter, b1C] 1 b1C] := by
  rw [glC_updatePhysics]
  simp only [physLoop, List.get?_cons_zero, List.get?_cons_succ, List.set_cons_zero,
    List.set_cons_succ]
  rw [B0_eval]

theorem snap_list_eval : (updatePhysicsSnapshot cfgW 0 ([b0C, b1C], gridW)).1 =
    [b0Cafter, integrateBubble cfgW glC [b0C, b1C] 1 b1C] := by
  rw [glC_updatePhysicsSnapshot]
  rw [show [b0C, b1C].mapIdx (fun i b => integrateBubble cfgW glC [b0C, b1C] i b) =
    [integrateBubble cfgW glC [b0C, b1C] 0 b0C, integrateBubble cfgW glC [b0C, b1C] 1 b1C] by
      simp [List.mapIdx_cons]]
  rw [B0_eval]

end Bubbles

namespace Bubbles

theorem clampVel_id (vx vy : ℝ) (h : vx * vx + vy * vy ≤ 16) : clampVel vx vy = (vx, vy) := by
  rw [clampVel, if_neg]
  push_neg
  have h0 : 0 ≤ vx * vx + vy * vy := by nlinarith [sq_nonneg vx, sq_nonneg vy]
  have := Real.sqrt_le_sqrt h
  rwa [show (16 : ℝ) = 4 ^ 2 by norm_num, Real.sqrt_sq (by norm_num : (0 : ℝ) ≤ 4)] at this

theorem bounceAxis_id (lo hi p v : ℝ) (h1 : ¬p < lo) (h2 : ¬hi < p) :
    bounceAxis lo hi p v = (p, v) := by
  rw [bounceAxis, if_neg h1, if_neg h1, if_neg h2, if_neg h2]

theorem dxC_bounds : 100.18 < dxC ∧ dxC < 100.19 := by
  constructor <;> norm_num [dxC, VX0C]

theorem dC_bounds : 128 < dC ∧ dC < 129 := by
  have hd := dxC_bounds
  constructor
  · rw [dC, show (128 : ℝ) = Real.sqrt (128 ^ 2) by
      rw [Real.sqrt_sq (by norm_num : (0 : ℝ) ≤ 128)]]
    apply Real.sqrt_lt_sqrt (by norm_num)
    nlinarith [hd.1, hd.2]
  · rw [dC]
    rw [Real.sqrt_lt' (by norm_num : (0 : ℝ) < 129)]
    nlinarith [hd.1, hd.2]

theorem dC_pos : 0 < dC := lt_trans (by norm_num) dC_bounds.1

theorem pushC_bounds : 1 / 130 < pushC ∧ pushC < 2 / 130 := by
  have hd := dC_bounds
  constructor <;> rw [pushC] <;> rw [div_lt_div_iff (by norm_num) (by norm_num)] <;> linarith

theorem sxC_pos : 0 < sxC := by
  have hd := dC_bounds
  have hx := dxC_bounds
  have hp := pushC_bounds
  rw [sxC]
  have h1 : 0 < dxC / dC := div_pos (by linarith) dC_pos
  nlinarith [h1, hp.1]

theorem sxC_lt : sxC < 0.028 := by
  have hd := dC_bounds
  have hx := dxC_bounds
  have hp := pushC_bounds
  rw [sxC]
  have h1 : dxC / dC < 1 := by
    rw [div_lt_one dC_pos]
    linarith
  have h0 : 0 < dxC / dC := div_pos (by linarith) dC_pos
  nlinarith [h1, h0, hp.1, hp.2]

theorem syC_bounds : -0.018 < syC ∧ syC < 0 := by
  have hd := dC_bounds
  have hp := pushC_bounds
  have hpp : 0 < pushC := lt_trans (by norm_num) hp.1
  rw [syC]
  constructor
  · have h1 : -80 / dC > -(0.63 : ℝ) := by
      rw [gt_iff_lt, neg_lt, ← neg_div, div_lt_iff dC_pos]
      linarith
    nlinarith [h1, hp.2, hpp]
  · have h1 : -80 / dC < 0 := div_neg_of_neg_of_pos (by norm_num) dC_pos
    nlinarith [h1, hpp]

theorem D1C_bounds : 80.001 < D1C ∧ D1C < 80.102 := by
  constructor
  · rw [D1C]
    have : (80 : ℝ) < Real.sqrt 6409 := by
      rw [show (80 : ℝ) = Real.sqrt (80 ^ 2) by
        rw [Real.sqrt_sq (by norm_num : (0 : ℝ) ≤ 80)]]
      apply Real.sqrt_lt_sqrt (by norm_num)
      norm_num
    linarith
  · rw [D1C]
    have : Real.sqrt 6409 < 80.101 := by
      rw [Real.sqrt_lt' (by norm_num : (0 : ℝ) < 80.101)]
      norm_num
    linarith

theorem D1C_pos : 0 < D1C := lt_trans (by norm_num) D1C_bounds.1

theorem cx1C_bounds : -0.00057 < cx1C ∧ cx1C < -0.00056 := by
  have hd := D1C_bounds
  have he : cx1C = -0.045 / D1C := by rw [cx1C]; ring
  constructor
  · rw [he, lt_div_iff D1C_pos]
    nlinarith [hd.1]
  · rw [he, div_lt_iff D1C_pos]
    nlinarith [hd.2]

theorem cy1C_bounds : 0.0149 < cy1C ∧ cy1C < 0.01501 := by
  have hd := D1C_bounds
  have he : cy1C = 1.2 / D1C := by rw [cy1C]; ring
  constructor
  · rw [he, lt_div_iff D1C_pos]
    nlinarith [hd.2]
  · rw [he, div_lt_iff D1C_pos]
    nlinarith [hd.1]

end Bubbles

namespace Bubbles

theorem sep_snap_eval : separationForce [b0C, b1C] 1 b1C = (0, 0) := by
  rw [separationForce]
  simp only [sepLoop]
  norm_num [b0C, b1C, bW]

theorem sep_seq_eval : separationForce [b0Cafter, b1C] 1 b1C = (sxC, syC) := by
  rw [separationForce]
  simp only [sepLoop]
  have hx := dxC_bounds
  have hb := VX0C_bounds
  norm_num [b0Cafter, b0C, b1C, bW]
  split_ifs with h
  · rw [Prod.mk.injEq]
    constructor
    · simp only [sxC, pushC, dC, dxC]
      norm_num
    · simp only [syC, pushC, dC, dxC]
      norm_num
  · exfalso
    rw [dxC] at hx
    push_neg at h
    have h2 := h (by nlinarith [hx.1, hx.2])
    nlinarith [hx.1, hx.2, h2]

end Bubbles

namespace Bubbles

/-- The second bubble's post-damping velocity (x) in the snapshot update. -/
noncomputable def VXsC : ℝ := (2 + cx1C + 0.012125) * 0.93

/-- The second bubble's post-damping velocity (y) in the snapshot update. -/
noncomputable def VYsC : ℝ := cy1C * 0.93

/-- The second bubble's post-damping velocity (x) in the in-place update. -/
noncomputable def VXqC : ℝ := (2 + sxC + cx1C + 0.012125) * 0.93

/-- The second bubble's post-damping velocity (y) in the in-place update. -/
noncomputable def VYqC : ℝ := (syC + cy1C) * 0.93

theorem F1_snap_eval : totalForce cfgW glC [b0C, b1C] 1 b1C =
    (2 + cx1C + 0.012125, cy1C) := by
  rw [totalForce]
  rw [sep_snap_eval]
  norm_num [cfgW, b1C, bW, glC, Real.cos_zero, Real.sin_zero, cx1C, cy1C, D1C]

theorem F1_seq_eval : totalForce cfgW glC [b0Cafter, b1C] 1 b1C =
    (2 + sxC + cx1C + 0.012125, syC + cy1C) := by
  rw [totalForce]
  rw [sep_seq_eval]
  norm_num [cfgW, b1C, bW, glC, Real.cos_zero, Real.sin_zero, cx1C, cy1C, D1C]

theorem B1_snap_x : (integrateBubble cfgW glC [b0C, b1C] 1 b1C).x = 503 + VXsC := by
  rw [integrateBubble, F1_snap_eval]
  have hvx : (b1C.vx + (2 + cx1C + 0.012125 : ℝ)) * 0.93 = VXsC := by
    rw [VXsC]
    norm_num [b1C, bW]
  have hvy : (b1C.vy + cy1C) * 0.93 = VYsC := by
    rw [VYsC]
    norm_num [b1C, bW]
  rw [hvx, hvy]
  have hcx := cx1C_bounds
  have hcy := cy1C_bounds
  have hcl : clampVel VXsC VYsC = (VXsC, VYsC) := by
    apply clampVel_id
    rw [VXsC, VYsC]
    nlinarith [hcx.1, hcx.2, hcy.1, hcy.2]
  rw [hcl]
  have hbx : bounceAxis (b1C.r * 0.6) (cfgW.width - b1C.r * 0.6) (b1C.x + VXsC) VXsC =
      (b1C.x + VXsC, VXsC) := by
    apply bounceAxis_id
    · norm_num [b1C, bW]
      rw [VXsC]
      nlinarith [hcx.1, hcx.2]
    · norm_num [b1C, bW, cfgW]
      rw [VXsC]
      nlinarith [hcx.1, hcx.2]
  rw [hbx]
  norm_num [b1C, bW]

theorem B1_seq_x : (integrateBubble cfgW glC [b0Cafter, b1C] 1 b1C).x = 503 + VXqC := by
  rw [integrateBubble, F1_seq_eval]
  have hvx : (b1C.vx + (2 + sxC + cx1C + 0.012125 : ℝ)) * 0.93 = VXqC := by
    rw [VXqC]
    norm_num [b1C, bW]
  have hvy : (b1C.vy + (syC + cy1C)) * 0.93 = VYqC := by
    rw [VYqC]
    norm_num [b1C, bW]
  rw [hvx, hvy]
  have hcx := cx1C_bounds
  have hcy := cy1C_bounds
  have hsx1 := sxC_pos
  have hsx2 := sxC_lt
  have hsy := syC_bounds
  have hcl : clampVel VXqC VYqC = (VXqC, VYqC) := by
    apply clampVel_id
    rw [VXqC, VYqC]
    nlinarith [hcx.1, hcx.2, hcy.1, hcy.2, hsx1, hsx2, hsy.1, hsy.2]
  rw [hcl]
  have hbx : bounceAxis (b1C.r * 0.6) (cfgW.width - b1C.r * 0.6) (b1C.x + VXqC) VXqC =
      (b1C.x + VXqC, VXqC) := by
    apply bounceAxis_id
    · norm_num [b1C, bW]
      rw [VXqC]
      nlinarith [hcx.1, hcx.2, hsx1, hsx2]
    · norm_num [b1C, bW, cfgW]
      rw [VXqC]
      nlinarith [hcx.1, hcx.2, hsx1, hsx2]
  rw [hbx]
  norm_num [b1C, bW]

end Bubbles

namespace Bubbles

/-- C1 counterexample.  On a concrete two-bubble frame, the in-place update
of `updatePhysics` differs from the snapshot update in which every force is
computed from pre-update state: the second bubble's separation force reads
the first bubble's already-updated position. -/
theorem updatePhysics_order_counterexample :
    (updatePhysics cfgW 0 ([b0C, b1C], gridW)).1 ≠
      (updatePhysicsSnapshot cfgW 0 ([b0C, b1C], gridW)).1 := by
  rw [seq_list_eval, snap_list_eval]
  intro h
  injection h with h1 h2
  injection h2 with h3 h4
  have hx := congrArg Bubble.x h3
  rw [B1_seq_x, B1_snap_x] at hx
  have hdiff : VXqC - VXsC = sxC * 0.93 := by
    rw [VXqC, VXsC]
    ring
  nlinarith [sxC_pos]

/-- C1 (amended).  The per-frame globals (attraction target, centroid
balancing) are computed from pre-update state, and the first bubble of the
pool is integrated entirely against pre-update state — its update agrees
with the full-snapshot update; later bubbles' separation forces read the
already-updated positions of earlier-indexed bubbles. -/
theorem updatePhysics_first_bubble_snapshot (cfg : Cfg) (t : ℝ) (s : List Bubble × Grid) :
    ((updatePhysics cfg t s).1).get? 0 = ((updatePhysicsSnapshot cfg t s).1).get? 0 := by
  rcases s with ⟨bs, g⟩
  cases bs with
  | nil => rfl
  | cons b rest =>
    rw [updatePhysics, updatePhysicsSnapshot]
    simp only [List.length_cons, physLoop, List.get?_cons_zero, List.set_cons_zero,
      List.mapIdx_cons]
    rw [physLoop_get_lt _ _ _ 1 _ 0 (by omega)]
    rfl

end Bubbles
